import Mathlib

/-!
Shallow embedding of the idcloudhost Ansible collection
(`plugins/module_utils/base.py` and `plugins/modules/{network,vm,floating_ip,block_storage}.py`).

Modelling conventions:
* Decoded JSON payloads are `Value`; Python dicts are association lists
  `Dict := List (String × Value)` (insertion ordered, keys unique in practice).
* Every module operation runs in the monad `M`, which threads a call counter and
  the log of HTTP requests issued so far, and terminates abruptly through
  `Outcome`: `exitJson` (module.exit_json), `failJson` (module.fail_json, the
  Error Envelope), `keyError` (Python KeyError on a missing dict key) and
  `typeError` (Python TypeError).
* The HTTP transport is an oracle `Env : Nat → Resp` giving the decoded
  response of the i-th request of the run; `request` logs the call and consumes
  the next response.  Constant headers (apikey, Content-Type) are not logged:
  no property refers to them.
* `module.exit_json` results are completed with `changed := false` when the
  module did not set the key, matching the surrounding Ansible runtime which
  defaults a missing `changed` to false in the reported result.
-/

namespace IdCloudHost

inductive Value where
  | null
  | bool (b : Bool)
  | num (n : Int)
  | str (s : String)
  | list (xs : List Value)
  | obj (fields : List (String × Value))

abbrev Dict := List (String × Value)

mutual

/-- Python `==` on decoded JSON values (structural; the embedded code only
compares scalars and `None`). -/
def Value.pyEq : Value → Value → Bool
  | .null, .null => true
  | .bool a, .bool b => a == b
  | .num a, .num b => a == b
  | .str a, .str b => a == b
  | .list a, .list b => Value.pyEqList a b
  | .obj a, .obj b => Value.pyEqFields a b
  | _, _ => false

def Value.pyEqList : List Value → List Value → Bool
  | [], [] => true
  | x :: xs, y :: ys => Value.pyEq x y && Value.pyEqList xs ys
  | _, _ => false

def Value.pyEqFields : List (String × Value) → List (String × Value) → Bool
  | [], [] => true
  | (k, v) :: xs, (k2, v2) :: ys => k == k2 && Value.pyEq v v2 && Value.pyEqFields xs ys
  | _, _ => false

end

/-- Python truthiness of a decoded JSON value. -/
def Value.truthy : Value → Bool
  | .null => false
  | .bool b => b
  | .num n => n != 0
  | .str s => s ≠ ""
  | .list xs => !xs.isEmpty
  | .obj fs => !fs.isEmpty

def Value.isNull : Value → Bool
  | .null => true
  | _ => false

/-- Python `str(value)` as used in f-string URL/message interpolation.  Only
scalar values reach interpolation in the embedded code; the rendering of
lists/dicts is abbreviated (it only occurs inside one human-readable error
message). -/
def Value.pyStr : Value → String
  | .null => "None"
  | .bool true => "True"
  | .bool false => "False"
  | .num n => toString n
  | .str s => s
  | .list _ => "[list]"
  | .obj _ => "[dict]"

/-- First value bound to key `k` (Python dict lookup). -/
def dFind : Dict → String → Option Value
  | [], _ => none
  | (k2, v) :: rest, k => if k2 = k then some v else dFind rest k

/-- Python `d[k] = v`: replace in place or append. -/
def dSet : Dict → String → Value → Dict
  | [], k, v => [(k, v)]
  | (k2, v2) :: rest, k, v =>
      if k2 = k then (k, v) :: rest else (k2, v2) :: dSet rest k v

/-- Python `d.update(kvs)`. -/
def dUpdate (d : Dict) (kvs : Dict) : Dict :=
  kvs.foldl (fun acc kv => dSet acc kv.1 kv.2) d

/-- Abrupt termination of one module invocation. -/
inductive Outcome where
  | exitJson (result : Dict)
  | failJson (payload : Dict)
  | keyError (key : String)
  | typeError (msg : String)

/-- One logged HTTP request (constant headers omitted). -/
structure Call where
  method : String
  url : String
  body : Dict

/-- A decoded HTTP response: status code and JSON body. -/
structure Resp where
  status : Nat
  body : Value

/-- Transport oracle: the response to the i-th request of the run. -/
abbrev Env := Nat → Resp

/-- Run state: number of requests issued so far and the request log. -/
structure Trace where
  k : Nat
  calls : List Call

def M (α : Type) : Type := Trace → Except Outcome α × Trace

def M.pure {α : Type} (a : α) : M α := fun s => (.ok a, s)

def M.bind {α β : Type} (m : M α) (f : α → M β) : M β := fun s =>
  match m s with
  | (.ok a, s1) => f a s1
  | (.error e, s1) => (.error e, s1)

instance : Monad M where
  pure := M.pure
  bind := M.bind

def M.throw {α : Type} (e : Outcome) : M α := fun s => (.error e, s)

/-- Issue one HTTP request: log it and consume the next oracle response. -/
def request (env : Env) (method url : String) (body : Dict) : M Resp :=
  fun s => (.ok (env s.k), ⟨s.k + 1, s.calls ++ [⟨method, url, body⟩]⟩)

/-- Python `d[k]` on a known dict: KeyError when missing. -/
def dGet (d : Dict) (k : String) : M Value := fun s =>
  match dFind d k with
  | some v => (.ok v, s)
  | none => (.error (.keyError k), s)

/-- Python `value[k]` on an arbitrary decoded value. -/
def vGet (v : Value) (k : String) : M Value :=
  match v with
  | .obj fs => dGet fs k
  | _ => M.throw (.typeError "value is not subscriptable")

/-- Python `k in value`: key test on dicts, membership on lists, substring on
strings, TypeError otherwise (in particular on `None`). -/
def pyContains (container : Value) (k : String) : M Bool :=
  match container with
  | .obj fs => M.pure (dFind fs k).isSome
  | .list xs => M.pure (xs.any (fun x => Value.pyEq x (.str k)))
  | .str s => M.pure (k.isEmpty || (s.splitOn k).length != 1)
  | _ => M.throw (.typeError "argument is not a container")

/-- Python `**value` / `value.update`: the value must be a dict. -/
def asObj (v : Value) : M Dict :=
  match v with
  | .obj fs => M.pure fs
  | _ => M.throw (.typeError "value is not a mapping")

/-- `module.exit_json(**result)`; a result without `changed` is reported with
`changed=false` by the Ansible runtime. -/
def exitJson {α : Type} (d : Dict) : M α :=
  M.throw (.exitJson (if (dFind d "changed").isSome then d
                      else dUpdate d [("changed", .bool false)]))

/-- `module.fail_json(...)`: the Error Envelope. -/
def failJson {α : Type} (payload : Dict) : M α :=
  M.throw (.failJson payload)

def baseUrl : String := "https://api.idcloudhost.com/v1"

/-- `Base._init_url`: `{base_url}/{location}/{endpoint}`. -/
def initUrl (location endpoint : String) : String :=
  baseUrl ++ "/" ++ location ++ "/" ++ endpoint

/-- Loop body of `Base._get_existing_network` (base.py lines 55-64):
first entry whose `name` equals the probe, copied into the network dict. -/
def scanNetworks (name : Value) : List Value → M Dict
  | [] => M.pure []
  | v :: rest => do
      let vn ← vGet v "name"
      if Value.pyEq vn name then do
        let u ← vGet v "uuid"
        let vn2 ← vGet v "name"
        let sb ← vGet v "subnet"
        let df ← vGet v "is_default"
        M.pure [("uuid", u), ("name", vn2), ("subnet", sb), ("is_default", df)]
      else
        scanNetworks name rest

/-- `Base._get_existing_network` (base.py lines 48-66). -/
def getExistingNetwork (env : Env) (location : String) (name : Value) : M Dict := do
  let resp ← request env "GET" (initUrl location "network/networks") []
  match resp.body with
  | .list values =>
      if values.length > 0 then scanNetworks name values else M.pure []
  | _ => M.pure []

/-- Python conditional `'' if k not in value else value[k]` (base.py lines
83-86). -/
def fieldOrEmpty (v : Value) (k : String) : M Value := do
  let c ← pyContains v k
  if c then vGet v k else M.pure (.str "")

/-- Result row built for a matching IP entry (base.py lines 81-90): missing
assignment/name keys become the empty string. -/
def scanIpsHit (v : Value) : M Value := do
  let u ← vGet v "uuid"
  let nm ← fieldOrEmpty v "name"
  let addr ← vGet v "address"
  let atv ← fieldOrEmpty v "assigned_to"
  let apv ← fieldOrEmpty v "assigned_to_private_ip"
  let en ← vGet v "enabled"
  M.pure (.obj [("uuid", u), ("name", nm), ("public_ipv4", addr),
                ("assigned_to_vm_uuid", atv), ("private_ipv4_address", apv),
                ("enabled", en)])

/-- Loop body of `Base._get_public_ipv4` (base.py lines 75-92).  Note the
`return dict()` of line 92 sits inside the `isinstance` block, so exhausting
the loop yields the empty dict but an empty/non-list collection does not. -/
def scanIps (vmUuid privateIpv4 name : Value) : List Value → M Value
  | [] => M.pure (.obj [])
  | v :: rest => do
      let c1 ← pyContains v "assigned_to_private_ip"
      let f1 ← show M Bool from
        if c1 then do
          let x ← vGet v "assigned_to_private_ip"
          M.pure (Value.pyEq x privateIpv4)
        else M.pure false
      if f1 then scanIpsHit v else do
        let c2 ← pyContains v "assigned_to"
        let f2 ← show M Bool from
          if c2 then do
            let x ← vGet v "assigned_to"
            M.pure (Value.pyEq x vmUuid)
          else M.pure false
        if f2 then scanIpsHit v else do
          let c3 ← pyContains v "name"
          let f3 ← show M Bool from
            if c3 then do
              let x ← vGet v "name"
              M.pure (Value.pyEq x name)
            else M.pure false
          if f3 then scanIpsHit v else scanIps vmUuid privateIpv4 name rest

/-- `Base._get_public_ipv4` (base.py lines 68-92).  Returns the matching row,
the empty dict after an unsuccessful scan, or — when the collection is not a
list or is empty — Python's implicit `None` (the function falls off its end). -/
def getPublicIpv4 (env : Env) (location : String)
    (vmUuid privateIpv4 name : Value) : M Value := do
  let resp ← request env "GET" (initUrl location "network/ip_addresses") []
  match resp.body with
  | .list values =>
      if values.length > 0 then scanIps vmUuid privateIpv4 name values
      else M.pure .null
  | _ => M.pure .null

/-- `Base._delete_public_ipv4` (base.py lines 94-104): DELETE addressed by the
public IPv4 address; non-200 is a hard failure. -/
def deletePublicIpv4 (env : Env) (location : String) (publicIpv4 : Value) : M Unit := do
  let resp ← request env "DELETE"
      (initUrl location ("network/ip_addresses/" ++ publicIpv4.pyStr)) []
  if resp.status ≠ 200 then
    failJson [("msg", .str "Failed to delete the VM."),
              ("error", .str "There was a problem with the request when deleting the public IPv4 address.")]
  else M.pure ()

/-- Primary-disk scan of `Base._construct_vm_data` (base.py lines 126-132). -/
def scanStorage : List Value → M (Value × Value)
  | [] => M.pure (.num 0, .str "")
  | st :: rest => do
      let p ← vGet st "primary"
      if p.truthy then do
        let size ← vGet st "size"
        let u ← vGet st "uuid"
        M.pure (size, u)
      else scanStorage rest

/-- `Base._construct_vm_data` (base.py lines 119-149): optional floating-IP
join, primary-disk scan, normalized VM record with `changed=False`. -/
def constructVmData (env : Env) (location : String)
    (data : Value) (includePublicIpv4 : Bool) : M Dict := do
  let floatingIp ← show M Value from
    if includePublicIpv4 then do
      let u ← vGet data "uuid"
      let p ← vGet data "private_ipv4"
      getPublicIpv4 env location u p .null
    else M.pure (.obj [])
  let hasPub ← pyContains floatingIp "public_ipv4"
  let publicIpv4 ← show M Value from
    if hasPub then vGet floatingIp "public_ipv4" else M.pure (.str "")
  let storage ← vGet data "storage"
  let dd ← show M (Value × Value) from
    match storage with
    | .list sts => scanStorage sts
    | _ => M.throw (.typeError "storage is not iterable")
  let u ← vGet data "uuid"
  let nm ← vGet data "name"
  let hn ← vGet data "hostname"
  let vc ← vGet data "vcpu"
  let mem ← vGet data "memory"
  let priv ← vGet data "private_ipv4"
  let ba ← vGet data "billing_account"
  let st ← vGet data "status"
  M.pure [("uuid", u), ("name", nm), ("hostname", hn), ("disks", dd.1),
          ("disk_uuid", dd.2), ("vcpu", vc), ("ram", mem),
          ("private_ipv4", priv), ("public_ipv4", publicIpv4),
          ("billing_account", ba), ("status", st), ("changed", .bool false)]

/-- Loop body of `Base._get_vm` (base.py lines 113-115): match on uuid or name
(short-circuit: name is only read when the uuid differs). -/
def scanVms (env : Env) (location : String) (uuid name : Value)
    (includePublicIpv4 : Bool) : List Value → M Dict
  | [] => M.pure []
  | v :: rest => do
      let vu ← vGet v "uuid"
      if Value.pyEq vu uuid then constructVmData env location v includePublicIpv4
      else do
        let vn ← vGet v "name"
        if Value.pyEq vn name then constructVmData env location v includePublicIpv4
        else scanVms env location uuid name includePublicIpv4 rest

/-- `Base._get_vm` (base.py lines 106-117). -/
def getVm (env : Env) (location : String) (uuid name : Value)
    (includePublicIpv4 : Bool) : M Dict := do
  let resp ← request env "GET" (initUrl location "user-resource/vm/list") []
  match resp.body with
  | .list values =>
      if values.length > 0 then scanVms env location uuid name includePublicIpv4 values
      else M.pure []
  | _ => M.pure []

/-! ### `modules/network.py` -/

/-- Inputs of the network module (network.py lines 98-103); `api_key` is only
a constant header and is not modelled. -/
structure NetworkParams where
  location : String
  name : Value
  state : String

/-- `Network.get_existing_network_by_name` (network.py lines 169-190), the
same scan as `Base._get_existing_network` against `network/network` + `s`. -/
def networkGetExistingByName (env : Env) (p : NetworkParams) : M Dict := do
  let resp ← request env "GET" (initUrl p.location "network/networks") []
  match resp.body with
  | .list values =>
      if values.length > 0 then scanNetworks p.name values else M.pure []
  | _ => M.pure []

/-- `Network.main` (network.py lines 97-167) after parameter loading. -/
def networkMain (env : Env) (p : NetworkParams) : M Unit := do
  let network ← networkGetExistingByName env p
  let network ←
    if p.state = "present" then
      if (dFind network "uuid").isSome then
        M.pure (dUpdate network [("changed", .bool false)])
      else do
        let resp ← request env "POST"
            (initUrl p.location "network/network" ++ "?name=" ++ p.name.pyStr) []
        let data := resp.body
        let hasU ← pyContains data "uuid"
        if !hasU then
          failJson [("msg", .str "Create network fail"), ("error", data)]
        else do
          let u ← vGet data "uuid"
          let nm ← vGet data "name"
          let sb ← vGet data "subnet"
          let df ← vGet data "is_default"
          M.pure [("uuid", u), ("name", nm), ("subnet", sb),
                  ("is_default", df), ("changed", .bool true)]
    else if p.state = "absent" then
      if (dFind network "uuid").isSome then do
        let uuid ← dGet network "uuid"
        let resp ← request env "DELETE"
            (initUrl p.location ("network/network/" ++ uuid.pyStr)) []
        if resp.status = 200 then
          M.pure (dUpdate network [("changed", .bool true)])
        else
          failJson [("msg", .str "Delete network fail"),
                    ("error", .str "Something is wrong with the request.")]
      else M.pure (dUpdate network [("changed", .bool false)])
    else M.pure network
  exitJson network

/-! ### `modules/floating_ip.py` -/

/-- Inputs of the floating-ip module (floating_ip.py lines 133-139);
`vmName` is `None` when the optional `vm_name` was not supplied. -/
structure FipParams where
  location : String
  name : Value
  vmName : Value
  state : String

/-- `FloatingIp._assign_to_vm` (floating_ip.py lines 235-252). -/
def fipAssignToVm (env : Env) (p : FipParams) (ipv4Address vmUuid : Value) : M Value := do
  let resp ← request env "POST"
      (initUrl p.location ("network/ip_addresses/" ++ ipv4Address.pyStr ++ "/assign"))
      [("vm_uuid", vmUuid)]
  let data := resp.body
  let hasU ← pyContains data "uuid"
  if hasU then M.pure data
  else M.pure (.obj [("msg", .str "Failed to assign the floating IP into the selected VM."),
                     ("error", data)])

/-- `FloatingIp._unassign_from_vm` (floating_ip.py lines 254-272): on success
the association fields of the response copy are overwritten with the empty
string. -/
def fipUnassignFromVm (env : Env) (p : FipParams) (ipv4Address : Value) : M Value := do
  let resp ← request env "POST"
      (initUrl p.location ("network/ip_addresses/" ++ ipv4Address.pyStr ++ "/unassign")) []
  let data := resp.body
  let hasU ← pyContains data "uuid"
  if hasU then do
    let fs ← asObj data
    M.pure (.obj (dUpdate fs [("assigned_to", .str ""), ("assigned_to_private_ip", .str "")]))
  else M.pure (.obj [("msg", .str "Failed to unassign the floating IP from the selected VM."),
                     ("error", data)])

/-- `FloatingIp._update_assigned_floating_ip` (floating_ip.py lines 274-286):
either the three association output fields, a propagated failure, or nothing. -/
def fipUpdateAssigned (floatingIp : Value) (vmName : Value) : M Dict := do
  let hasU ← pyContains floatingIp "uuid"
  if hasU then do
    let atv ← vGet floatingIp "assigned_to"
    let apv ← vGet floatingIp "assigned_to_private_ip"
    M.pure [("vm_name", vmName), ("assigned_to_vm_uuid", atv),
            ("private_ipv4_address", apv)]
  else do
    let hasM ← pyContains floatingIp "msg"
    if hasM then do
      let fs ← asObj floatingIp
      failJson fs
    else M.pure []

/-- `FloatingIp._create_floating_ip` (floating_ip.py lines 197-233).  Note
line 230 reads `vm['name']` unconditionally, even when no VM was requested. -/
def fipCreateFloatingIp (env : Env) (p : FipParams) (vm : Dict) : M Unit := do
  let resp ← request env "POST" (initUrl p.location "network/ip_addresses")
      [("name", p.name)]
  let data := resp.body
  let hasU ← pyContains data "uuid"
  if !hasU then
    failJson [("msg", .str "Failed to create the floating IP."), ("error", data)]
  else do
    let u ← vGet data "uuid"
    let nm ← vGet data "name"
    let addr ← vGet data "address"
    let en ← vGet data "enabled"
    let result : Dict :=
      [("uuid", u), ("name", nm), ("public_ipv4", addr), ("vm_name", .str ""),
       ("assigned_to_vm_uuid", .str ""), ("private_ipv4_address", .str ""),
       ("enabled", en), ("changed", .bool true)]
    let dataResponse ← show M Value from
      if (dFind vm "uuid").isSome then do
        let vmu ← dGet vm "uuid"
        fipAssignToVm env p addr vmu
      else M.pure (.obj [])
    let vmn ← dGet vm "name"
    let dataResponse2 ← fipUpdateAssigned dataResponse vmn
    exitJson (dUpdate result dataResponse2)

/-- `FloatingIp.main` (floating_ip.py lines 129-195) after parameter loading.
The final `exit_json(**floating_ip)` of line 195 is inlined into every branch
(in the source the branches mutate `floating_ip` in place and fall through). -/
def fipMain (env : Env) (p : FipParams) : M Unit := do
  let floatingIp ← getPublicIpv4 env p.location .null .null p.name
  let vm ← show M Dict from
    if !p.vmName.isNull then do
      let vm ← getVm env p.location .null p.vmName true
      if (dFind vm "uuid").isNone then
        failJson [("msg", .str "Failed to create the floating IP. The VM name is provided, but no VM was found.")]
      else M.pure vm
    else M.pure ([] : Dict)
  if p.state = "present" then do
    let hasU ← pyContains floatingIp "uuid"
    if hasU then do
      let fi0 ← asObj floatingIp
      let fi1 := dUpdate fi0
        [("vm_name", if p.vmName.isNull then .str "" else p.vmName),
         ("changed", .bool false)]
      if (dFind vm "uuid").isSome then do
        let atv ← dGet fi1 "assigned_to_vm_uuid"
        if Value.pyEq atv (.str "") then do
          let pub ← dGet fi1 "public_ipv4"
          let vmu ← dGet vm "uuid"
          let dataResponse ← fipAssignToVm env p pub vmu
          let vmn ← dGet vm "name"
          let dataResponse2 ← fipUpdateAssigned dataResponse vmn
          exitJson (dUpdate fi1 (dataResponse2 ++ [("changed", .bool true)]))
        else exitJson fi1
      else exitJson fi1
    else fipCreateFloatingIp env p vm
  else if p.state = "absent" then do
    let hasU ← pyContains floatingIp "uuid"
    if hasU then do
      let fi0 ← asObj floatingIp
      let pub ← dGet fi0 "public_ipv4"
      deletePublicIpv4 env p.location pub
      exitJson (dUpdate fi0 [("changed", .bool true)])
    else do
      let fi0 ← asObj floatingIp
      exitJson (dUpdate fi0 [("changed", .bool false)])
  else if p.state = "unassign" then do
    let hasU ← pyContains floatingIp "uuid"
    if hasU then do
      let fi0 ← asObj floatingIp
      let pub ← dGet fi0 "public_ipv4"
      let dataResponse ← fipUnassignFromVm env p pub
      let dataResponse2 ← fipUpdateAssigned dataResponse (.str "")
      let atv ← dGet fi0 "assigned_to_vm_uuid"
      exitJson (dUpdate fi0
        (dataResponse2 ++ [("changed", .bool (!(Value.pyEq atv (.str ""))))]))
    else do
      let fi0 ← asObj floatingIp
      exitJson (dUpdate fi0 [("changed", .bool false)])
  else do
    let fi0 ← asObj floatingIp
    exitJson fi0

/-! ### `modules/vm.py` -/

/-- Inputs of the vm module (vm.py lines 250-264); conditionally required
fields are `None` when absent. -/
structure VmParams where
  location : String
  networkName : Value
  name : Value
  osName : Value
  osVersion : Value
  disks : Value
  vcpu : Value
  ram : Value
  username : Value
  password : Value
  removePublicIpv4 : Value
  state : String

/-- `os_version_choices` (vm.py lines 227-241). -/
def osVersionChoices : Dict :=
  [("almalinux", .list [.str "9.x", .str "8.x"]),
   ("bsd", .list [.str "freebsd_12.2"]),
   ("centos", .list [.str "9.x"]),
   ("cloudlinux", .list [.str "8.4", .str "7.9"]),
   ("debian", .list [.str "11", .str "12"]),
   ("fedora", .list [.str "32", .str "34", .str "36"]),
   ("opensuse", .list [.str "15.3"]),
   ("oracle", .list [.str "9.x"]),
   ("rhel", .list [.str "server_7.9", .str "server_8.4"]),
   ("rocky", .list [.str "linux_8.4", .str "9.x"]),
   ("ubuntu", .list [.str "21.04", .str "22.04-lts", .str "24.04-lts", .str "20.04-lts"]),
   ("vzlinux", .list [.str "8.x"]),
   ("windows", .list [.str "2019"])]

/-- `Vm._get_network` (vm.py lines 306-316): hard failure when the requested
network does not exist. -/
def vmGetNetwork (env : Env) (p : VmParams) : M Dict := do
  let network ← getExistingNetwork env p.location p.networkName
  if (dFind network "uuid").isNone then
    failJson [("msg", .str "Failed to create the VM."),
              ("error", .str "The selected network is not found.")]
  else M.pure network

/-- `Vm._create_vm` (vm.py lines 318-357): local OS validation, then the
creation POST.  The failure of line 352 spreads the raw provider body into
the envelope (`fail_json(msg=..., **data)`).  Message interpolation of the
valid-version list is abbreviated by `Value.pyStr`. -/
def vmCreateVm (env : Env) (p : VmParams) (network : Dict) : M Unit := do
  let choices ← dGet osVersionChoices p.osName.pyStr
  let ok ← show M Bool from
    match choices with
    | .list xs => M.pure (xs.any (fun x => Value.pyEq x p.osVersion))
    | _ => M.throw (.typeError "argument is not a container")
  if !ok then
    failJson [("msg", .str "Failed to create the VM."),
              ("error", .str ("Selected os_name is " ++ p.osName.pyStr ++
                " then os_version must be one of " ++ choices.pyStr ++
                ", got " ++ p.osVersion.pyStr))]
  else do
    let netUuid ← dGet network "uuid"
    let resp ← request env "POST" (initUrl p.location "user-resource/vm")
        [("network_uuid", netUuid), ("name", p.name), ("os_name", p.osName),
         ("os_version", p.osVersion), ("disks", p.disks), ("vcpu", p.vcpu),
         ("ram", p.ram), ("username", p.username), ("password", p.password)]
    let data := resp.body
    let hasU ← pyContains data "uuid"
    if !hasU then do
      let fs ← asObj data
      failJson (("msg", Value.str "Failed to create the VM.") :: fs)
    else do
      let result ← constructVmData env p.location data true
      exitJson (dUpdate result [("changed", .bool true)])

/-- `Vm._activate_vm` (vm.py lines 453-475): unconditional start/stop POST;
`changed` is the comparison of the returned and the previous status; a
response without `uuid` is a hard failure. -/
def vmActivateVm (env : Env) (p : VmParams) (vm : Dict) (active : Bool) : M Dict := do
  let action := if active then "start" else "stop"
  let uuid ← dGet vm "uuid"
  let resp ← request env "POST" (initUrl p.location ("user-resource/vm/" ++ action))
      [("uuid", uuid)]
  let data := resp.body
  let hasU ← pyContains data "uuid"
  if hasU then do
    let ds ← vGet data "status"
    let vs ← dGet vm "status"
    M.pure (dUpdate vm [("changed", .bool (!(Value.pyEq ds vs)))])
  else
    failJson [("msg", .str ("Failed to " ++ action ++ " the VM.")), ("error", data)]

/-- `Vm._resize_ram_vcpu` (vm.py lines 391-421): PATCH to the vm endpoint iff
vcpu or ram differ; a response without `uuid` yields the msg/errors dict. -/
def vmResizeRamVcpu (env : Env) (p : VmParams) (currentVm : Dict) : M Dict := do
  let cvc ← dGet currentVm "vcpu"
  let cram ← dGet currentVm "ram"
  let isChanged := !(Value.pyEq p.vcpu cvc) || !(Value.pyEq p.ram cram)
  if isChanged then do
    let uuid ← dGet currentVm "uuid"
    let resp ← request env "PATCH" (initUrl p.location "user-resource/vm")
        [("uuid", uuid), ("name", p.name), ("vcpu", p.vcpu), ("ram", p.ram)]
    let data := resp.body
    let hasU ← pyContains data "uuid"
    if hasU then constructVmData env p.location data true
    else M.pure [("msg", .str "Failed to resize the VM."), ("errors", data)]
  else M.pure currentVm

/-- `Vm._resize_disks` (vm.py lines 423-451): PATCH to the storage
sub-endpoint iff the requested size differs from the current primary disk;
the body carries the primary disk uuid. -/
def vmResizeDisks (env : Env) (p : VmParams) (currentVm : Dict) : M Dict := do
  let cd ← dGet currentVm "disks"
  let isChanged := !(Value.pyEq p.disks cd)
  if isChanged then do
    let uuid ← dGet currentVm "uuid"
    let du ← dGet currentVm "disk_uuid"
    let resp ← request env "PATCH" (initUrl p.location "user-resource/vm/storage")
        [("uuid", uuid), ("disk_uuid", du), ("size_gb", p.disks)]
    let data := resp.body
    let hasU ← pyContains data "uuid"
    if hasU then do
      let sz ← vGet data "size"
      M.pure (dUpdate currentVm [("disks", sz)])
    else M.pure [("msg", .str "Failed to resize the VM."), ("errors", data)]
  else M.pure currentVm

/-- `Vm._resize_vm` (vm.py lines 359-389): stop, both resizes (each failure
recorded, neither short-circuits the other), start, then a single failure
carrying the accumulated payloads (`fail_json(fail_result)` passes the dict
as the positional `msg`).  The source passes the in-place mutated
`current_vm` to the final start call; only its unchanged `uuid`/`status`
fields are read there, so the post-stop dict is passed here. -/
def vmResizeVm (env : Env) (p : VmParams) (currentVm : Dict) : M Dict := do
  let cd ← dGet currentVm "disks"
  let cvc ← dGet currentVm "vcpu"
  let cram ← dGet currentVm "ram"
  let isChanged := !(Value.pyEq p.disks cd) || !(Value.pyEq p.vcpu cvc) ||
    !(Value.pyEq p.ram cram)
  if isChanged then do
    let cur1 ← vmActivateVm env p currentVm false
    let vmA ← vmResizeRamVcpu env p cur1
    let fail1 : Dict :=
      if (dFind vmA "uuid").isSome then [] else [("error_ram_vcpu", Value.obj vmA)]
    let vmB ← vmResizeDisks env p cur1
    let fail2 : Dict :=
      if (dFind vmB "uuid").isSome then [] else [("error_disks", Value.obj vmB)]
    let _ ← vmActivateVm env p cur1 true
    let vmC := dUpdate vmB [("changed", .bool isChanged)]
    if !(fail1.isEmpty && fail2.isEmpty) then
      failJson [("msg", Value.obj (fail1 ++ fail2))]
    else M.pure vmC
  else M.pure currentVm

/-- `Vm._delete_vm` (vm.py lines 477-496): DELETE by the VM uuid; non-200 is
a hard failure. -/
def vmDeleteVm (env : Env) (p : VmParams) (vm : Dict) : M Dict := do
  let uuid ← dGet vm "uuid"
  let resp ← request env "DELETE" (initUrl p.location "user-resource/vm")
      [("uuid", uuid)]
  if resp.status = 200 then M.pure (dUpdate vm [("changed", .bool true)])
  else failJson [("msg", .str "Failed to delete the VM."), ("error", resp.body)]

/-- `Vm.main` (vm.py lines 223-304) after parameter loading; the final
`exit_json(**vm)` of line 304 receives whatever the selected branch left in
`vm`. -/
def vmMain (env : Env) (p : VmParams) : M Unit := do
  let vm ← getVm env p.location .null p.name true
  let vm ←
    if p.state = "present" then
      if (dFind vm "uuid").isSome then
        M.pure (dUpdate vm [("changed", .bool false)])
      else do
        let network ← vmGetNetwork env p
        vmCreateVm env p network
        M.pure vm
    else if p.state = "resize" then
      if (dFind vm "uuid").isSome then vmResizeVm env p vm else M.pure vm
    else if p.state = "active" then vmActivateVm env p vm true
    else if p.state = "inactive" then vmActivateVm env p vm false
    else if p.state = "absent" then
      if (dFind vm "uuid").isSome then do
        let vm2 ← vmDeleteVm env p vm
        if p.removePublicIpv4.truthy then do
          let pub ← dGet vm2 "public_ipv4"
          deletePublicIpv4 env p.location pub
          M.pure vm2
        else M.pure vm2
      else M.pure vm
    else M.pure vm
  exitJson vm

/-! ### `modules/block_storage.py` -/

/-- Inputs of the block-storage module (block_storage.py lines 113-120);
`vm_name` is a required parameter. -/
structure BsParams where
  location : String
  name : Value
  vmName : Value
  size : Value
  state : String

/-- Keyword parameters accepted by `Base._get_vm` (base.py line 106). -/
def getVmAcceptedKwargs : List String := ["uuid", "name", "include_public_ipv4"]

/-- Keyword arguments passed to `self._get_vm` at block_storage.py line 140. -/
def bsGetVmCallKwargs : List String := ["name", "include_storage"]

/-- Loop of `BlockStorage._get_disk_from_vm` (block_storage.py lines 216-220). -/
def bsScanDisks (name : Value) : List Value → M Value
  | [] => M.pure (.obj [])
  | st :: rest => do
      let sn ← vGet st "name"
      if Value.pyEq sn name then M.pure st else bsScanDisks name rest

/-- `BlockStorage._get_disk_from_vm` (block_storage.py lines 215-220): reads
`vm['storage_list']`, a key no VM record carries. -/
def bsGetDiskFromVm (p : BsParams) (vm : Dict) : M Value := do
  let sl ← dGet vm "storage_list"
  match sl with
  | .list xs => bsScanDisks p.name xs
  | _ => M.throw (.typeError "storage_list is not iterable")

/-- `BlockStorage._create_block_storage` (block_storage.py lines 149-176). -/
def bsCreateBlockStorage (env : Env) (p : BsParams) (vm : Dict) : M Unit := do
  let uuid ← dGet vm "uuid"
  let resp ← request env "POST" (initUrl p.location "user-resource/vm/storage")
      [("uuid", uuid), ("size_gb", p.size)]
  let data := resp.body
  let hasU ← pyContains data "uuid"
  if !hasU then
    failJson [("msg", .str "Failed to create the block storage."), ("error", data)]
  else do
    let u ← vGet data "uuid"
    let nm ← vGet data "name"
    let sz ← vGet data "size"
    let vmn ← dGet vm "name"
    exitJson [("uuid", u), ("name", nm), ("size", sz), ("vm_name", vmn),
              ("changed", .bool true)]

/-- `BlockStorage._delete_block_storage` (block_storage.py lines 178-213). -/
def bsDeleteBlockStorage (env : Env) (p : BsParams) (vm : Dict) : M Unit := do
  let disk ← bsGetDiskFromVm p vm
  let hasU ← pyContains disk "uuid"
  if !hasU then
    failJson [("msg", .str "Failed to create the block storage. The block storage name is provided, but no disk was found.")]
  else do
    let diskUuid ← vGet disk "uuid"
    let vmUuid ← dGet vm "uuid"
    let resp ← request env "DELETE" (initUrl p.location "user-resource/vm/storage")
        [("storage_uuid", diskUuid), ("uuid", vmUuid)]
    let data := resp.body
    let hasS ← pyContains data "success"
    if !hasS then
      failJson [("msg", .str "Failed to delete the block storage."), ("error", data)]
    else do
      let resp2 ← request env "DELETE"
          (initUrl p.location ("storage/disks/" ++ diskUuid.pyStr))
          [("storage_uuid", diskUuid), ("uuid", vmUuid)]
      if resp2.status ≠ 204 then
        failJson [("msg", .str "Failed to delete the block storage."),
                  ("error", .str "There was a problem with the request when deleting the block storage.")]
      else exitJson [("changed", .bool true)]

/-- `BlockStorage.main` (block_storage.py lines 109-147) after parameter
loading.  Line 140 invokes `self._get_vm(name=vm_name, include_storage=True)`;
Python raises `TypeError` for the keyword `include_storage`, which
`Base._get_vm` does not accept, before the lookup body runs. -/
def bsMain (env : Env) (p : BsParams) : M Unit := do
  let vm ←
    if !p.vmName.isNull then do
      let vm ←
        if bsGetVmCallKwargs.all (fun k => getVmAcceptedKwargs.contains k) then
          getVm env p.location .null p.vmName true
        else
          M.throw (.typeError "_get_vm got an unexpected keyword argument include_storage")
      if (dFind vm "uuid").isNone then
        failJson [("msg", .str "Failed to create the block storage. The VM name is provided, but no VM was found.")]
      else M.pure vm
    else M.pure ([] : Dict)
  if p.state = "present" then bsCreateBlockStorage env p vm
  else if p.state = "absent" then bsDeleteBlockStorage env p vm
  else M.pure ()

/-! ### Run helpers -/

/-- Run one module operation from the start of an invocation (no request
issued yet, empty call log). -/
def runM {α : Type} (m : M α) : Except Outcome α × Trace := m ⟨0, []⟩

/-- A mutating HTTP call (anything other than a read). -/
def Call.isMutating (c : Call) : Bool := c.method != "GET"

/-- The normalized VM record shape produced by `Base._construct_vm_data`
(base.py lines 134-147), parameterized by its field values. -/
def vmRecord (u nm hn dv du vc rm pv pub ba st : Value) : Dict :=
  [("uuid", u), ("name", nm), ("hostname", hn), ("disks", dv),
   ("disk_uuid", du), ("vcpu", vc), ("ram", rm), ("private_ipv4", pv),
   ("public_ipv4", pub), ("billing_account", ba), ("status", st),
   ("changed", .bool false)]

/-- A computation that issues no HTTP request (it leaves the trace alone). -/
def preservesTrace {α : Type} (m : M α) : Prop := ∀ s, (m s).2 = s

/-- Every call the computation appends to the log satisfies `P`. -/
def callsWithin {α : Type} (m : M α) (P : Call → Prop) : Prop :=
  ∀ s, ∀ c ∈ (m s).2.calls, c ∈ s.calls ∨ P c

/-! ### The FloatingIP association invariant -/

/-- Key `k` is absent from the dict or bound to the empty string — the
"unassigned" reading of a sentinel field. -/
def emptyishD (d : Dict) (k : String) : Prop :=
  dFind d k = none ∨ dFind d k = some (.str "")

/-- The FloatingIP invariant on a result dict: `assigned_to_vm_uuid` and
`private_ipv4_address` are empty together. -/
def fipInv (d : Dict) : Prop :=
  emptyishD d "assigned_to_vm_uuid" ↔ emptyishD d "private_ipv4_address"

/-- The invariant lifted to arbitrary values (trivial off dicts). -/
def fipInvV : Value → Prop
  | .obj fs => fipInv fs
  | _ => True

/-- Provider well-formedness of one JSON value: its `assigned_to` and
`assigned_to_private_ip` fields are absent-or-empty together (the provider
assigns and clears both association fields atomically). -/
def pairOk : Value → Prop
  | .obj fs => emptyishD fs "assigned_to" ↔ emptyishD fs "assigned_to_private_ip"
  | _ => True

/-- Provider well-formedness of one decoded response body: every record in a
collection, and an object body itself, satisfies `pairOk`. -/
def wfBody : Value → Prop
  | .list xs => ∀ x ∈ xs, pairOk x
  | .obj fs => pairOk (.obj fs)
  | _ => True

/-- Every response the transport can return is well-formed. -/
def wfEnv (env : Env) : Prop := ∀ i, wfBody (env i).body

/-- Every `exit_json` payload the computation can produce satisfies `I`. -/
def ExitsInv {α : Type} (m : M α) (I : Dict → Prop) : Prop :=
  ∀ s e s2, m s = (.error (.exitJson e), s2) → I e

/-- The computation never terminates through `exit_json`. -/
def noExit {α : Type} (m : M α) : Prop := ExitsInv m (fun _ => False)

/-! ### Generic lemmas about the run monad and dict operations -/

theorem bindDef {α β : Type} (m : M α) (f : α → M β) : m >>= f = M.bind m f := rfl

theorem pureDef {α : Type} (a : α) : (pure a : M α) = M.pure a := rfl

theorem M.bind_ok {α β : Type} {m : M α} {f : α → M β} {s s2 : Trace} {b : β}
    (h : M.bind m f s = (.ok b, s2)) :
    ∃ a s1, m s = (.ok a, s1) ∧ f a s1 = (.ok b, s2) := by
  unfold M.bind at h
  cases hm : m s with
  | mk r s1 =>
      rw [hm] at h
      cases r with
      | ok a => exact ⟨a, s1, rfl, h⟩
      | error e => simp at h

theorem bind_ok_step {α β : Type} {m : M α} {f : α → M β} {s s1 : Trace} {a : α}
    (hm : m s = (.ok a, s1)) : (M.bind m f) s = f a s1 := by
  unfold M.bind
  rw [hm]

theorem bind_error_step {α β : Type} {m : M α} {f : α → M β} {s s1 : Trace}
    {e : Outcome} (hm : m s = (.error e, s1)) :
    (M.bind m f) s = (.error e, s1) := by
  unfold M.bind
  rw [hm]

theorem dFind_dSet (d : Dict) (k : String) (v : Value) :
    dFind (dSet d k v) k = some v := by
  induction d with
  | nil => simp [dSet, dFind]
  | cons kv rest ih =>
      by_cases h : kv.1 = k
      · simp [dSet, dFind, h]
      · simp [dSet, dFind, h, ih]

theorem dFind_dSet_ne (d : Dict) (k k2 : String) (v : Value) (h : k ≠ k2) :
    dFind (dSet d k v) k2 = dFind d k2 := by
  induction d with
  | nil => simp [dSet, dFind, h]
  | cons kv rest ih =>
      by_cases h2 : kv.1 = k
      · simp [dSet, dFind, h2, h]
      · simp [dSet, dFind, h2, ih]

theorem dUpdate_single (d : Dict) (k : String) (v : Value) :
    dUpdate d [(k, v)] = dSet d k v := rfl

theorem preserves_pure {α : Type} (a : α) : preservesTrace (M.pure a) := fun _ => rfl

theorem preserves_throw {α : Type} (e : Outcome) :
    preservesTrace (M.throw e : M α) := fun _ => rfl

theorem preserves_dGet (d : Dict) (k : String) : preservesTrace (dGet d k) := by
  intro s
  unfold dGet
  cases dFind d k <;> rfl

theorem preserves_vGet (v : Value) (k : String) : preservesTrace (vGet v k) := by
  cases v <;> first | exact preserves_dGet _ _ | exact preserves_throw _

theorem preserves_pyContains (v : Value) (k : String) :
    preservesTrace (pyContains v k) := by
  cases v <;> first | exact preserves_pure _ | exact preserves_throw _

theorem preserves_asObj (v : Value) : preservesTrace (asObj v) := by
  cases v <;> first | exact preserves_pure _ | exact preserves_throw _

theorem preserves_failJson {α : Type} (d : Dict) :
    preservesTrace (failJson d : M α) := fun _ => rfl

theorem preserves_exitJson {α : Type} (d : Dict) :
    preservesTrace (exitJson d : M α) := fun _ => rfl

theorem preserves_bind {α β : Type} {m : M α} {f : α → M β}
    (hm : preservesTrace m) (hf : ∀ a, preservesTrace (f a)) :
    preservesTrace (M.bind m f) := by
  intro s
  unfold M.bind
  cases hms : m s with
  | mk r s1 =>
      have hs1 : s1 = s := by have := hm s; rw [hms] at this; exact this
      cases r with
      | ok a => rw [hs1]; exact hf a s
      | error e => simpa using hs1

theorem preserves_ite {α : Type} {c : Prop} [Decidable c] {m1 m2 : M α}
    (h1 : preservesTrace m1) (h2 : preservesTrace m2) :
    preservesTrace (if c then m1 else m2) := by
  by_cases h : c <;> simp [h, h1, h2]

theorem callsWithin_of_preserves {α : Type} {m : M α} {P : Call → Prop}
    (h : preservesTrace m) : callsWithin m P := by
  intro s c hc
  rw [h s] at hc
  exact Or.inl hc

theorem callsWithin_bind {α β : Type} {m : M α} {f : α → M β} {P : Call → Prop}
    (hm : callsWithin m P) (hf : ∀ a, callsWithin (f a) P) :
    callsWithin (M.bind m f) P := by
  intro s c hc
  unfold M.bind at hc
  cases hms : m s with
  | mk r s1 =>
      rw [hms] at hc
      cases r with
      | ok a =>
          rcases hf a s1 c hc with h | h
          · have := hm s c
            rw [hms] at this
            exact this h
          · exact Or.inr h
      | error e =>
          have := hm s c
          rw [hms] at this
          exact this hc

theorem callsWithin_ite {α : Type} {c : Prop} [Decidable c] {m1 m2 : M α}
    {P : Call → Prop} (h1 : callsWithin m1 P) (h2 : callsWithin m2 P) :
    callsWithin (if c then m1 else m2) P := by
  by_cases h : c <;> simp [h, h1, h2]

theorem callsWithin_request {env : Env} {method url : String} {body : Dict}
    {P : Call → Prop} (h : P ⟨method, url, body⟩) :
    callsWithin (request env method url body) P := by
  intro s c hc
  unfold request at hc
  simp at hc
  rcases hc with hc | hc
  · exact Or.inl hc
  · rw [hc]; exact Or.inr h

theorem callsWithin_mono {α : Type} {m : M α} {P Q : Call → Prop}
    (hPQ : ∀ c, P c → Q c) (h : callsWithin m P) : callsWithin m Q := by
  intro s c hc
  rcases h s c hc with h2 | h2
  · exact Or.inl h2
  · exact Or.inr (hPQ c h2)

/-- Running `request` then a request-free continuation appends exactly the one
call. -/
theorem run_request_then {α : Type} (env : Env) (method url : String) (body : Dict)
    (k : Resp → M α) (hk : ∀ r, preservesTrace (k r)) (s : Trace) :
    ((M.bind (request env method url body) k) s).2 =
      ⟨s.k + 1, s.calls ++ [⟨method, url, body⟩]⟩ := by
  have h : (M.bind (request env method url body) k) s =
      k (env s.k) ⟨s.k + 1, s.calls ++ [⟨method, url, body⟩]⟩ := rfl
  rw [h]
  exact hk (env s.k) _

theorem initUrl_ne {loc a b : String} (h : a ≠ b) : initUrl loc a ≠ initUrl loc b := by
  intro he
  apply h
  unfold initUrl at he
  have hd2 := congrArg String.data he
  simp only [String.data_append, List.append_assoc] at hd2
  have h3 := List.append_cancel_left hd2
  have h4 := List.append_cancel_left h3
  have h5 := List.append_cancel_left h4
  have h6 := List.append_cancel_left h5
  exact String.ext h6

theorem preserves_fieldOrEmpty (v : Value) (k : String) :
    preservesTrace (fieldOrEmpty v k) := by
  unfold fieldOrEmpty
  simp only [bindDef, pureDef]
  apply preserves_bind (preserves_pyContains _ _); intro c
  exact preserves_ite (preserves_vGet _ _) (preserves_pure _)

theorem preserves_scanIpsHit (v : Value) : preservesTrace (scanIpsHit v) := by
  unfold scanIpsHit
  simp only [bindDef, pureDef]
  apply preserves_bind (preserves_vGet _ _); intro u
  apply preserves_bind (preserves_fieldOrEmpty _ _); intro nm
  apply preserves_bind (preserves_vGet _ _); intro addr
  apply preserves_bind (preserves_fieldOrEmpty _ _); intro atv
  apply preserves_bind (preserves_fieldOrEmpty _ _); intro apv
  apply preserves_bind (preserves_vGet _ _); intro en
  exact preserves_pure _

theorem preserves_scanIps (a b c : Value) (xs : List Value) :
    preservesTrace (scanIps a b c xs) := by
  induction xs with
  | nil => exact preserves_pure _
  | cons v rest ih =>
      unfold scanIps
      simp only [bindDef, pureDef]
      apply preserves_bind (preserves_pyContains _ _); intro c1
      apply preserves_bind
      · apply preserves_ite ?_ (preserves_pure _)
        apply preserves_bind (preserves_vGet _ _); intro x
        exact preserves_pure _
      intro f1
      apply preserves_ite (preserves_scanIpsHit _)
      apply preserves_bind (preserves_pyContains _ _); intro c2
      apply preserves_bind
      · apply preserves_ite ?_ (preserves_pure _)
        apply preserves_bind (preserves_vGet _ _); intro x
        exact preserves_pure _
      intro f2
      apply preserves_ite (preserves_scanIpsHit _)
      apply preserves_bind (preserves_pyContains _ _); intro c3
      apply preserves_bind
      · apply preserves_ite ?_ (preserves_pure _)
        apply preserves_bind (preserves_vGet _ _); intro x
        exact preserves_pure _
      intro f3
      exact preserves_ite (preserves_scanIpsHit _) ih

theorem preserves_scanStorage (xs : List Value) :
    preservesTrace (scanStorage xs) := by
  induction xs with
  | nil => exact preserves_pure _
  | cons v rest ih =>
      unfold scanStorage
      simp only [bindDef, pureDef]
      apply preserves_bind (preserves_vGet _ _); intro pr
      apply preserves_ite ?_ ih
      apply preserves_bind (preserves_vGet _ _); intro size
      apply preserves_bind (preserves_vGet _ _); intro u
      exact preserves_pure _

theorem callsWithin_getPublicIpv4 (env : Env) (loc : String) (a b c : Value) :
    callsWithin (getPublicIpv4 env loc a b c)
      (fun cl => cl = ⟨"GET", initUrl loc "network/ip_addresses", []⟩) := by
  unfold getPublicIpv4
  simp only [bindDef, pureDef]
  apply callsWithin_bind
  · exact callsWithin_request rfl
  intro resp
  apply callsWithin_of_preserves
  rcases resp with ⟨code, body⟩
  cases body <;> try exact preserves_pure _
  exact preserves_ite (preserves_scanIps _ _ _ _) (preserves_pure _)

theorem callsWithin_constructVmData (env : Env) (loc : String) (data : Value)
    (b : Bool) :
    callsWithin (constructVmData env loc data b)
      (fun cl => cl = ⟨"GET", initUrl loc "network/ip_addresses", []⟩) := by
  unfold constructVmData
  simp only [bindDef, pureDef]
  apply callsWithin_bind
  · apply callsWithin_ite
    · apply callsWithin_bind
      · exact callsWithin_of_preserves (preserves_vGet _ _)
      intro u
      apply callsWithin_bind
      · exact callsWithin_of_preserves (preserves_vGet _ _)
      intro pp
      exact callsWithin_getPublicIpv4 env loc u pp .null
    · exact callsWithin_of_preserves (preserves_pure _)
  intro fi
  apply callsWithin_of_preserves
  apply preserves_bind (preserves_pyContains _ _); intro hasPub
  apply preserves_bind
  · exact preserves_ite (preserves_vGet _ _) (preserves_pure _)
  intro pub
  apply preserves_bind (preserves_vGet _ _); intro storage
  apply preserves_bind
  · cases storage <;> first | exact preserves_scanStorage _ | exact preserves_throw _
  intro dd
  apply preserves_bind (preserves_vGet _ _); intro x1
  apply preserves_bind (preserves_vGet _ _); intro x2
  apply preserves_bind (preserves_vGet _ _); intro x3
  apply preserves_bind (preserves_vGet _ _); intro x4
  apply preserves_bind (preserves_vGet _ _); intro x5
  apply preserves_bind (preserves_vGet _ _); intro x6
  apply preserves_bind (preserves_vGet _ _); intro x7
  apply preserves_bind (preserves_vGet _ _); intro x8
  exact preserves_pure _

theorem callsWithin_vmActivateVm (env : Env) (p : VmParams) (vm : Dict)
    (active : Bool) :
    callsWithin (vmActivateVm env p vm active)
      (fun cl => cl.method = "POST" ∧ cl.url = initUrl p.location
        ("user-resource/vm/" ++ if active then "start" else "stop")) := by
  unfold vmActivateVm
  simp only [bindDef, pureDef]
  apply callsWithin_bind
  · exact callsWithin_of_preserves (preserves_dGet _ _)
  intro u
  apply callsWithin_bind
  · exact callsWithin_request ⟨rfl, rfl⟩
  intro resp
  apply callsWithin_of_preserves
  apply preserves_bind (preserves_pyContains _ _); intro hasU
  apply preserves_ite ?_ (preserves_failJson _)
  apply preserves_bind (preserves_vGet _ _); intro ds
  apply preserves_bind (preserves_dGet _ _); intro vs
  exact preserves_pure _

theorem callsWithin_vmResizeRamVcpu (env : Env) (p : VmParams) (d : Dict) :
    callsWithin (vmResizeRamVcpu env p d)
      (fun cl => cl.url = initUrl p.location "user-resource/vm" ∨
        cl = ⟨"GET", initUrl p.location "network/ip_addresses", []⟩) := by
  unfold vmResizeRamVcpu
  simp only [bindDef, pureDef]
  apply callsWithin_bind
  · exact callsWithin_of_preserves (preserves_dGet _ _)
  intro cvc
  apply callsWithin_bind
  · exact callsWithin_of_preserves (preserves_dGet _ _)
  intro cram
  apply callsWithin_ite
  · apply callsWithin_bind
    · exact callsWithin_of_preserves (preserves_dGet _ _)
    intro u
    apply callsWithin_bind
    · exact callsWithin_request (Or.inl rfl)
    intro resp
    apply callsWithin_bind
    · exact callsWithin_of_preserves (preserves_pyContains _ _)
    intro hasU
    apply callsWithin_ite
    · exact callsWithin_mono (fun c h => Or.inr h)
        (callsWithin_constructVmData env p.location resp.body true)
    · exact callsWithin_of_preserves (preserves_pure _)
  · exact callsWithin_of_preserves (preserves_pure _)

theorem callsWithin_vmResizeDisks (env : Env) (p : VmParams) (d : Dict) :
    callsWithin (vmResizeDisks env p d)
      (fun cl => cl.url = initUrl p.location "user-resource/vm/storage") := by
  unfold vmResizeDisks
  simp only [bindDef, pureDef]
  apply callsWithin_bind
  · exact callsWithin_of_preserves (preserves_dGet _ _)
  intro cd
  apply callsWithin_ite
  · apply callsWithin_bind
    · exact callsWithin_of_preserves (preserves_dGet _ _)
    intro u
    apply callsWithin_bind
    · exact callsWithin_of_preserves (preserves_dGet _ _)
    intro du
    apply callsWithin_bind
    · exact callsWithin_request rfl
    intro resp
    apply callsWithin_of_preserves
    apply preserves_bind (preserves_pyContains _ _); intro hasU
    apply preserves_ite ?_ (preserves_pure _)
    apply preserves_bind (preserves_vGet _ _); intro sz
    exact preserves_pure _
  · exact callsWithin_of_preserves (preserves_pure _)

/-- Equation: `_resize_ram_vcpu` is the identity (no request) when both vcpu
and ram already match. -/
theorem vmResizeRamVcpu_noop (env : Env) (p : VmParams) (d : Dict)
    (vcv rv : Value) (hfv : dFind d "vcpu" = some vcv)
    (hfr : dFind d "ram" = some rv)
    (hv : Value.pyEq p.vcpu vcv = true) (hr : Value.pyEq p.ram rv = true)
    (s : Trace) : vmResizeRamVcpu env p d s = (.ok d, s) := by
  unfold vmResizeRamVcpu
  simp only [bindDef, pureDef]
  rw [bind_ok_step (show dGet d "vcpu" s = (.ok vcv, s) by simp [dGet, hfv])]
  rw [bind_ok_step (show dGet d "ram" s = (.ok rv, s) by simp [dGet, hfr])]
  simp [hv, hr, M.pure]

/-- Equation: `_resize_disks` is the identity (no request) when the size
already matches. -/
theorem vmResizeDisks_noop (env : Env) (p : VmParams) (d : Dict) (dv : Value)
    (hfd : dFind d "disks" = some dv) (hd : Value.pyEq p.disks dv = true)
    (s : Trace) : vmResizeDisks env p d s = (.ok d, s) := by
  unfold vmResizeDisks
  simp only [bindDef, pureDef]
  rw [bind_ok_step (show dGet d "disks" s = (.ok dv, s) by simp [dGet, hfd])]
  simp [hd, M.pure]

/-- Characterization: an `_activate_vm` run that returns normally yields the
input record with only its `changed` key rewritten. -/
theorem vmActivateVm_ok_shape {env : Env} {p : VmParams} {vm : Dict}
    {active : Bool} {s s2 : Trace} {a : Dict}
    (h : vmActivateVm env p vm active s = (.ok a, s2)) :
    ∃ bl, a = dSet vm "changed" (Value.bool bl) := by
  unfold vmActivateVm at h
  simp only [bindDef, pureDef] at h
  obtain ⟨u, t1, h1, h⟩ := M.bind_ok h
  obtain ⟨resp, t2, h2, h⟩ := M.bind_ok h
  obtain ⟨hasU, t3, h3, h⟩ := M.bind_ok h
  by_cases hb : hasU = true
  · rw [if_pos hb] at h
    obtain ⟨ds, t4, h4, h⟩ := M.bind_ok h
    obtain ⟨vs, t5, h5, h⟩ := M.bind_ok h
    unfold M.pure at h
    have hr2 : Except.ok (ε := Outcome) (dUpdate vm [("changed", Value.bool (!(Value.pyEq ds vs)))]) = .ok a :=
      congrArg Prod.fst h
    refine ⟨!(Value.pyEq ds vs), ?_⟩
    injection hr2.symm with hh
  · rw [if_neg hb] at h
    unfold failJson M.throw at h
    exact absurd (congrArg Prod.fst h) (by simp)

/-! ### Toolkit for exit_json payload invariants -/

theorem exitsInv_of_noExit {α : Type} {m : M α} (h : noExit m) (I : Dict → Prop) :
    ExitsInv m I := fun s e s2 hm => (h s e s2 hm).elim

theorem noExit_pure {α : Type} (a : α) : noExit (M.pure a) := by
  intro s e s2 h
  simp [M.pure] at h

theorem noExit_throw {α : Type} {e0 : Outcome} (h0 : ∀ d, e0 ≠ .exitJson d) :
    noExit (M.throw e0 : M α) := by
  intro s e s2 h
  unfold M.throw at h
  have h1 := congrArg Prod.fst h
  simp at h1
  exact h0 e h1

theorem noExit_failJson {α : Type} (d : Dict) : noExit (failJson d : M α) :=
  noExit_throw (by intro x h; cases h)

theorem noExit_request (env : Env) (method url : String) (body : Dict) :
    noExit (request env method url body) := by
  intro s e s2 h
  unfold request at h
  simp at h

theorem noExit_dGet (d : Dict) (k : String) : noExit (dGet d k) := by
  intro s e s2 h
  unfold dGet at h
  cases hf : dFind d k <;> rw [hf] at h <;> simp at h

theorem noExit_vGet (v : Value) (k : String) : noExit (vGet v k) := by
  cases v <;>
    first
    | exact noExit_dGet _ _
    | exact noExit_throw (by intro x h; cases h)

theorem noExit_pyContains (v : Value) (k : String) : noExit (pyContains v k) := by
  cases v <;>
    first
    | exact noExit_pure _
    | exact noExit_throw (by intro x h; cases h)

theorem noExit_asObj (v : Value) : noExit (asObj v) := by
  cases v <;>
    first
    | exact noExit_pure _
    | exact noExit_throw (by intro x h; cases h)

theorem exitsInv_bind {α β : Type} {m : M α} {f : α → M β} {I : Dict → Prop}
    (hm : ExitsInv m I) (P : α → Prop)
    (hP : ∀ s a s1, m s = (.ok a, s1) → P a)
    (hf : ∀ a, P a → ExitsInv (f a) I) : ExitsInv (M.bind m f) I := by
  intro s e s2 h
  unfold M.bind at h
  cases hm2 : m s with
  | mk r s1 =>
      rw [hm2] at h
      cases r with
      | ok a => exact hf a (hP s a s1 hm2) s1 e s2 h
      | error e2 =>
          simp at h
          obtain ⟨h1, h2⟩ := h
          exact hm s e s2 (by rw [hm2, h1, h2])

theorem exitsInv_bind2 {α β : Type} {m : M α} {f : α → M β} {I : Dict → Prop}
    (hm : ExitsInv m I) (hf : ∀ a, ExitsInv (f a) I) : ExitsInv (M.bind m f) I :=
  exitsInv_bind hm (fun _ => True) (fun _ _ _ _ => trivial) (fun a _ => hf a)

theorem noExit_bind {α β : Type} {m : M α} {f : α → M β}
    (hm : noExit m) (hf : ∀ a, noExit (f a)) : noExit (M.bind m f) :=
  exitsInv_bind2 hm hf

theorem exitsInv_ite {α : Type} {c : Prop} [Decidable c] {m1 m2 : M α}
    {I : Dict → Prop} (h1 : ExitsInv m1 I) (h2 : ExitsInv m2 I) :
    ExitsInv (if c then m1 else m2) I := by
  by_cases h : c
  · rw [if_pos h]; exact h1
  · rw [if_neg h]; exact h2

theorem exitsInv_exitJson {α : Type} {d : Dict} {I : Dict → Prop}
    (hI : I (if (dFind d "changed").isSome then d
             else dUpdate d [("changed", .bool false)])) :
    ExitsInv (exitJson d : M α) I := by
  intro s e s2 h
  unfold exitJson M.throw at h
  have h1 := congrArg Prod.fst h
  simp at h1
  rw [← h1]
  exact hI

theorem asObj_ok {v : Value} {s s2 : Trace} {d : Dict}
    (h : asObj v s = (.ok d, s2)) : v = .obj d := by
  cases v with
  | obj fs =>
      simp [asObj, M.pure] at h
      rw [h.1]
  | null => simp [asObj, M.throw] at h
  | bool b => simp [asObj, M.throw] at h
  | num n => simp [asObj, M.throw] at h
  | str s3 => simp [asObj, M.throw] at h
  | list l => simp [asObj, M.throw] at h

/-! ### Compound noExit lemmas -/

theorem noExit_fieldOrEmpty (v : Value) (k : String) : noExit (fieldOrEmpty v k) := by
  unfold fieldOrEmpty
  simp only [bindDef, pureDef]
  exact noExit_bind (noExit_pyContains _ _)
    (fun c => exitsInv_ite (noExit_vGet _ _) (noExit_pure _))

theorem noExit_scanIpsHit (v : Value) : noExit (scanIpsHit v) := by
  unfold scanIpsHit
  simp only [bindDef, pureDef]
  exact noExit_bind (noExit_vGet _ _) (fun u =>
    noExit_bind (noExit_fieldOrEmpty _ _) (fun nm =>
      noExit_bind (noExit_vGet _ _) (fun addr =>
        noExit_bind (noExit_fieldOrEmpty _ _) (fun atv =>
          noExit_bind (noExit_fieldOrEmpty _ _) (fun apv =>
            noExit_bind (noExit_vGet _ _) (fun en => noExit_pure _))))))

theorem noExit_scanIps (a b c : Value) (xs : List Value) :
    noExit (scanIps a b c xs) := by
  induction xs with
  | nil => exact noExit_pure _
  | cons v rest ih =>
      unfold scanIps
      simp only [bindDef, pureDef]
      refine noExit_bind (noExit_pyContains _ _) (fun c1 => ?_)
      refine noExit_bind (exitsInv_ite
        (noExit_bind (noExit_vGet _ _) (fun x => noExit_pure _))
        (noExit_pure _)) (fun f1 => ?_)
      refine exitsInv_ite (noExit_scanIpsHit _) ?_
      refine noExit_bind (noExit_pyContains _ _) (fun c2 => ?_)
      refine noExit_bind (exitsInv_ite
        (noExit_bind (noExit_vGet _ _) (fun x => noExit_pure _))
        (noExit_pure _)) (fun f2 => ?_)
      refine exitsInv_ite (noExit_scanIpsHit _) ?_
      refine noExit_bind (noExit_pyContains _ _) (fun c3 => ?_)
      refine noExit_bind (exitsInv_ite
        (noExit_bind (noExit_vGet _ _) (fun x => noExit_pure _))
        (noExit_pure _)) (fun f3 => ?_)
      exact exitsInv_ite (noExit_scanIpsHit _) ih

theorem noExit_getPublicIpv4 (env : Env) (loc : String) (a b c : Value) :
    noExit (getPublicIpv4 env loc a b c) := by
  unfold getPublicIpv4
  simp only [bindDef, pureDef]
  refine noExit_bind (noExit_request _ _ _ _) (fun resp => ?_)
  rcases resp with ⟨code, body⟩
  cases body <;>
    first
    | exact noExit_pure _
    | exact exitsInv_ite (noExit_scanIps _ _ _ _) (noExit_pure _)

theorem noExit_scanStorage (xs : List Value) : noExit (scanStorage xs) := by
  induction xs with
  | nil => exact noExit_pure _
  | cons v rest ih =>
      unfold scanStorage
      simp only [bindDef, pureDef]
      refine noExit_bind (noExit_vGet _ _) (fun pr => ?_)
      exact exitsInv_ite
        (noExit_bind (noExit_vGet _ _) (fun size =>
          noExit_bind (noExit_vGet _ _) (fun u => noExit_pure _))) ih

theorem noExit_constructVmData (env : Env) (loc : String) (data : Value)
    (b : Bool) : noExit (constructVmData env loc data b) := by
  unfold constructVmData
  simp only [bindDef, pureDef]
  refine noExit_bind (exitsInv_ite
    (noExit_bind (noExit_vGet _ _) (fun u =>
      noExit_bind (noExit_vGet _ _) (fun pp =>
        noExit_getPublicIpv4 _ _ _ _ _)))
    (noExit_pure _)) (fun fi => ?_)
  refine noExit_bind (noExit_pyContains _ _) (fun hasPub => ?_)
  refine noExit_bind (exitsInv_ite (noExit_vGet _ _) (noExit_pure _)) (fun pub => ?_)
  refine noExit_bind (noExit_vGet _ _) (fun storage => ?_)
  refine noExit_bind ?_ (fun dd => ?_)
  · cases storage <;>
      first
      | exact noExit_scanStorage _
      | exact noExit_throw (by intro x h; cases h)
  · refine noExit_bind (noExit_vGet _ _) (fun x1 => ?_)
    refine noExit_bind (noExit_vGet _ _) (fun x2 => ?_)
    refine noExit_bind (noExit_vGet _ _) (fun x3 => ?_)
    refine noExit_bind (noExit_vGet _ _) (fun x4 => ?_)
    refine noExit_bind (noExit_vGet _ _) (fun x5 => ?_)
    refine noExit_bind (noExit_vGet _ _) (fun x6 => ?_)
    refine noExit_bind (noExit_vGet _ _) (fun x7 => ?_)
    exact noExit_bind (noExit_vGet _ _) (fun x8 => noExit_pure _)

theorem noExit_scanVms (env : Env) (loc : String) (uuid name : Value) (b : Bool)
    (xs : List Value) : noExit (scanVms env loc uuid name b xs) := by
  induction xs with
  | nil => exact noExit_pure _
  | cons v rest ih =>
      unfold scanVms
      simp only [bindDef, pureDef]
      refine noExit_bind (noExit_vGet _ _) (fun vu => ?_)
      refine exitsInv_ite (noExit_constructVmData _ _ _ _) ?_
      refine noExit_bind (noExit_vGet _ _) (fun vn => ?_)
      exact exitsInv_ite (noExit_constructVmData _ _ _ _) ih

theorem noExit_getVm (env : Env) (loc : String) (uuid name : Value) (b : Bool) :
    noExit (getVm env loc uuid name b) := by
  unfold getVm
  simp only [bindDef, pureDef]
  refine noExit_bind (noExit_request _ _ _ _) (fun resp => ?_)
  rcases resp with ⟨code, body⟩
  cases body <;>
    first
    | exact noExit_pure _
    | exact exitsInv_ite (noExit_scanVms _ _ _ _ _ _) (noExit_pure _)

theorem noExit_fipAssignToVm (env : Env) (p : FipParams) (a b : Value) :
    noExit (fipAssignToVm env p a b) := by
  unfold fipAssignToVm
  simp only [bindDef, pureDef]
  refine noExit_bind (noExit_request _ _ _ _) (fun resp => ?_)
  exact noExit_bind (noExit_pyContains _ _)
    (fun hasU => exitsInv_ite (noExit_pure _) (noExit_pure _))

theorem noExit_fipUnassignFromVm (env : Env) (p : FipParams) (a : Value) :
    noExit (fipUnassignFromVm env p a) := by
  unfold fipUnassignFromVm
  simp only [bindDef, pureDef]
  refine noExit_bind (noExit_request _ _ _ _) (fun resp => ?_)
  refine noExit_bind (noExit_pyContains _ _) (fun hasU => ?_)
  exact exitsInv_ite
    (noExit_bind (noExit_asObj _) (fun fs => noExit_pure _)) (noExit_pure _)

theorem noExit_fipUpdateAssigned (fi vmn : Value) :
    noExit (fipUpdateAssigned fi vmn) := by
  unfold fipUpdateAssigned
  simp only [bindDef, pureDef]
  refine noExit_bind (noExit_pyContains _ _) (fun hasU => ?_)
  refine exitsInv_ite
    (noExit_bind (noExit_vGet _ _) (fun atv =>
      noExit_bind (noExit_vGet _ _) (fun apv => noExit_pure _))) ?_
  refine noExit_bind (noExit_pyContains _ _) (fun hasM => ?_)
  exact exitsInv_ite
    (noExit_bind (noExit_asObj _) (fun fs => noExit_failJson _)) (noExit_pure _)

theorem noExit_deletePublicIpv4 (env : Env) (loc : String) (a : Value) :
    noExit (deletePublicIpv4 env loc a) := by
  unfold deletePublicIpv4
  simp only [bindDef, pureDef]
  exact noExit_bind (noExit_request _ _ _ _)
    (fun resp => exitsInv_ite (noExit_failJson _) (noExit_pure _))

/-! ### Value lemmas for the FloatingIP invariant -/

theorem dGet_ok {d : Dict} {k : String} {s s2 : Trace} {x : Value}
    (h : dGet d k s = (.ok x, s2)) : dFind d k = some x := by
  unfold dGet at h
  cases hf : dFind d k <;> rw [hf] at h <;> simp at h
  rw [h.1]

theorem dUpdate_nil (d : Dict) : dUpdate d [] = d := rfl

theorem dUpdate_cons (d : Dict) (k : String) (v : Value) (rest : Dict) :
    dUpdate d ((k, v) :: rest) = dUpdate (dSet d k v) rest := rfl

theorem fipInv_dSet_other {d : Dict} {k : String} {v : Value} (h : fipInv d)
    (h1 : k ≠ "assigned_to_vm_uuid") (h2 : k ≠ "private_ipv4_address") :
    fipInv (dSet d k v) := by
  unfold fipInv emptyishD at h ⊢
  rw [dFind_dSet_ne _ _ _ _ h1, dFind_dSet_ne _ _ _ _ h2]
  exact h

theorem fipInv_set_pair (d : Dict) {atv apv : Value}
    (hsh : atv = .str "" ↔ apv = .str "") :
    fipInv (dSet (dSet d "assigned_to_vm_uuid" atv) "private_ipv4_address" apv) := by
  unfold fipInv emptyishD
  rw [dFind_dSet_ne _ _ _ _ (by decide), dFind_dSet, dFind_dSet]
  simp [hsh]

theorem fipInv_exitPayload {d : Dict} (h : fipInv d) :
    fipInv (if (dFind d "changed").isSome then d
            else dUpdate d [("changed", .bool false)]) := by
  split
  · exact h
  · rw [dUpdate_single]
    exact fipInv_dSet_other h (by decide) (by decide)

theorem fieldOrEmpty_obj_eval (fs : Dict) (k : String) (s : Trace) :
    fieldOrEmpty (.obj fs) k s =
      (.ok (match dFind fs k with | some y => y | none => .str ""), s) := by
  unfold fieldOrEmpty
  simp only [bindDef, pureDef]
  cases hf : dFind fs k <;> simp [pyContains, M.bind, M.pure, vGet, dGet, hf]

theorem fieldOrEmpty_emptyish {fs : Dict} {k : String} {s s2 : Trace} {x : Value}
    (h : fieldOrEmpty (.obj fs) k s = (.ok x, s2)) :
    (x = .str "" ↔ emptyishD fs k) := by
  rw [fieldOrEmpty_obj_eval] at h
  have h1 := congrArg Prod.fst h
  simp at h1
  cases hf : dFind fs k with
  | none =>
      rw [hf] at h1
      simp [emptyishD, hf, ← h1]
  | some y =>
      rw [hf] at h1
      simp [emptyishD, hf, ← h1]

theorem scanIpsHit_inv {v : Value} {s s2 : Trace} {w : Value}
    (hpair : pairOk v) (h : scanIpsHit v s = (.ok w, s2)) : fipInvV w := by
  unfold scanIpsHit at h
  simp only [bindDef, pureDef] at h
  obtain ⟨u, t1, h1, h⟩ := M.bind_ok h
  cases v with
  | obj fs =>
      obtain ⟨nm, t2, h2, h⟩ := M.bind_ok h
      obtain ⟨addr, t3, h3, h⟩ := M.bind_ok h
      obtain ⟨atv, t4, h4, h⟩ := M.bind_ok h
      obtain ⟨apv, t5, h5, h⟩ := M.bind_ok h
      obtain ⟨en, t6, h6, h⟩ := M.bind_ok h
      unfold M.pure at h
      have h7 := congrArg Prod.fst h
      simp at h7
      have hat := fieldOrEmpty_emptyish h4
      have hap := fieldOrEmpty_emptyish h5
      unfold pairOk at hpair
      rw [← h7]
      unfold fipInvV fipInv emptyishD
      simp [dFind]
      exact hat.trans (hpair.trans hap.symm)
  | null => simp [vGet, M.throw] at h1
  | bool b => simp [vGet, M.throw] at h1
  | num n => simp [vGet, M.throw] at h1
  | str s3 => simp [vGet, M.throw] at h1
  | list l => simp [vGet, M.throw] at h1

theorem scanIps_inv {a b c : Value} {xs : List Value} {s s2 : Trace} {w : Value}
    (hxs : ∀ x ∈ xs, pairOk x) (h : scanIps a b c xs s = (.ok w, s2)) :
    fipInvV w := by
  induction xs generalizing s with
  | nil =>
      unfold scanIps at h
      unfold M.pure at h
      have h1 := congrArg Prod.fst h
      simp at h1
      rw [← h1]
      simp [fipInvV, fipInv, emptyishD, dFind]
  | cons v rest ih =>
      unfold scanIps at h
      simp only [bindDef, pureDef] at h
      obtain ⟨c1, t1, h1, h⟩ := M.bind_ok h
      obtain ⟨f1, t2, h2, h⟩ := M.bind_ok h
      by_cases hf1 : f1 = true
      · rw [if_pos hf1] at h
        exact scanIpsHit_inv (hxs v (List.mem_cons_self v rest)) h
      · rw [if_neg hf1] at h
        obtain ⟨c2, t3, h3, h⟩ := M.bind_ok h
        obtain ⟨f2, t4, h4, h⟩ := M.bind_ok h
        by_cases hf2 : f2 = true
        · rw [if_pos hf2] at h
          exact scanIpsHit_inv (hxs v (List.mem_cons_self v rest)) h
        · rw [if_neg hf2] at h
          obtain ⟨c3, t5, h5, h⟩ := M.bind_ok h
          obtain ⟨f3, t6, h6, h⟩ := M.bind_ok h
          by_cases hf3 : f3 = true
          · rw [if_pos hf3] at h
            exact scanIpsHit_inv (hxs v (List.mem_cons_self v rest)) h
          · rw [if_neg hf3] at h
            exact ih (fun x hx => hxs x (List.mem_cons_of_mem v hx)) h

theorem request_ok {env : Env} {method url : String} {body : Dict}
    {s s2 : Trace} {resp : Resp}
    (h : request env method url body s = (.ok resp, s2)) : resp = env s.k := by
  unfold request at h
  have h1 := congrArg Prod.fst h
  simp at h1
  rw [h1]

theorem getPublicIpv4_inv {env : Env} {loc : String} {a b c : Value}
    {s s2 : Trace} {w : Value} (hwf : wfEnv env)
    (h : getPublicIpv4 env loc a b c s = (.ok w, s2)) : fipInvV w := by
  unfold getPublicIpv4 at h
  simp only [bindDef, pureDef] at h
  obtain ⟨resp, t1, h1, h⟩ := M.bind_ok h
  have hresp := request_ok h1
  have hwfb : wfBody resp.body := by rw [hresp]; exact hwf s.k
  rcases resp with ⟨code, body⟩
  cases body with
  | list xs =>
      dsimp only [] at h hwfb
      by_cases hlen : xs.length > 0
      · rw [if_pos hlen] at h
        exact scanIps_inv hwfb h
      · rw [if_neg hlen] at h
        unfold M.pure at h
        have h2 := congrArg Prod.fst h
        simp at h2
        rw [← h2]
        trivial
  | null =>
      dsimp only [] at h
      unfold M.pure at h
      have h2 := congrArg Prod.fst h
      simp at h2
      rw [← h2]
      trivial
  | bool b2 =>
      dsimp only [] at h
      unfold M.pure at h
      have h2 := congrArg Prod.fst h
      simp at h2
      rw [← h2]
      trivial
  | num n =>
      dsimp only [] at h
      unfold M.pure at h
      have h2 := congrArg Prod.fst h
      simp at h2
      rw [← h2]
      trivial
  | str s3 =>
      dsimp only [] at h
      unfold M.pure at h
      have h2 := congrArg Prod.fst h
      simp at h2
      rw [← h2]
      trivial
  | obj fs =>
      dsimp only [] at h
      unfold M.pure at h
      have h2 := congrArg Prod.fst h
      simp at h2
      rw [← h2]
      trivial

theorem fipAssignToVm_pairOk {env : Env} {p : FipParams} {a b : Value}
    {s s2 : Trace} {v : Value} (hwf : wfEnv env)
    (h : fipAssignToVm env p a b s = (.ok v, s2)) : pairOk v := by
  unfold fipAssignToVm at h
  simp only [bindDef, pureDef] at h
  obtain ⟨resp, t1, h1, h⟩ := M.bind_ok h
  have hresp := request_ok h1
  have hwfb : wfBody resp.body := by rw [hresp]; exact hwf s.k
  obtain ⟨hasU, t2, h2, h⟩ := M.bind_ok h
  by_cases hb : hasU = true
  · rw [if_pos hb] at h
    unfold M.pure at h
    have h3 := congrArg Prod.fst h
    simp at h3
    rw [← h3]
    cases hbody : resp.body with
    | obj fs => rw [hbody] at hwfb; exact hwfb
    | list l => trivial
    | null => trivial
    | bool b2 => trivial
    | num n => trivial
    | str s3 => trivial
  · rw [if_neg hb] at h
    unfold M.pure at h
    have h3 := congrArg Prod.fst h
    simp at h3
    rw [← h3]
    simp [pairOk, emptyishD, dFind]

theorem fipUnassignFromVm_pairOk {env : Env} {p : FipParams} {a : Value}
    {s s2 : Trace} {v : Value}
    (h : fipUnassignFromVm env p a s = (.ok v, s2)) : pairOk v := by
  unfold fipUnassignFromVm at h
  simp only [bindDef, pureDef] at h
  obtain ⟨resp, t1, h1, h⟩ := M.bind_ok h
  obtain ⟨hasU, t2, h2, h⟩ := M.bind_ok h
  by_cases hb : hasU = true
  · rw [if_pos hb] at h
    obtain ⟨fs, t3, h3, h⟩ := M.bind_ok h
    unfold M.pure at h
    have h4 := congrArg Prod.fst h
    simp at h4
    rw [← h4]
    have hne : ("assigned_to_private_ip" : String) ≠ "assigned_to" := by decide
    rw [dUpdate_cons, dUpdate_cons, dUpdate_nil]
    dsimp only [pairOk]
    unfold emptyishD
    rw [dFind_dSet_ne _ _ _ _ hne, dFind_dSet, dFind_dSet]
  · rw [if_neg hb] at h
    unfold M.pure at h
    have h4 := congrArg Prod.fst h
    simp at h4
    rw [← h4]
    simp [pairOk, emptyishD, dFind]

theorem fipUpdateAssigned_shape {fi vmn : Value} {s s2 : Trace} {d : Dict}
    (hpair : pairOk fi) (h : fipUpdateAssigned fi vmn s = (.ok d, s2)) :
    d = [] ∨ ∃ atv apv, d = [("vm_name", vmn), ("assigned_to_vm_uuid", atv),
      ("private_ipv4_address", apv)] ∧ (atv = .str "" ↔ apv = .str "") := by
  cases fi with
  | obj fs =>
      unfold fipUpdateAssigned at h
      simp only [bindDef, pureDef] at h
      obtain ⟨hasU, t1, h1, h⟩ := M.bind_ok h
      by_cases hb : hasU = true
      · rw [if_pos hb] at h
        obtain ⟨atv, t2, h2, h⟩ := M.bind_ok h
        obtain ⟨apv, t3, h3, h⟩ := M.bind_ok h
        right
        refine ⟨atv, apv, ?_, ?_⟩
        · unfold M.pure at h
          have h4 := congrArg Prod.fst h
          simp at h4
          rw [← h4]
        · have ha1 : dFind fs "assigned_to" = some atv := dGet_ok h2
          have ha2 : dFind fs "assigned_to_private_ip" = some apv := dGet_ok h3
          have hp2 : emptyishD fs "assigned_to" ↔
              emptyishD fs "assigned_to_private_ip" := hpair
          unfold emptyishD at hp2
          rw [ha1, ha2] at hp2
          simpa using hp2
      · rw [if_neg hb] at h
        obtain ⟨hasM, t2, h2, h⟩ := M.bind_ok h
        by_cases hm2 : hasM = true
        · rw [if_pos hm2] at h
          obtain ⟨fs2, t3, h3, h⟩ := M.bind_ok h
          simp [failJson, M.throw] at h
        · rw [if_neg hm2] at h
          unfold M.pure at h
          have h4 := congrArg Prod.fst h
          simp at h4
          exact Or.inl h4
  | null =>
      unfold fipUpdateAssigned at h
      simp only [bindDef, pureDef] at h
      obtain ⟨hasU, t1, h1, h⟩ := M.bind_ok h
      simp [pyContains, M.throw] at h1
  | bool b2 =>
      unfold fipUpdateAssigned at h
      simp only [bindDef, pureDef] at h
      obtain ⟨hasU, t1, h1, h⟩ := M.bind_ok h
      simp [pyContains, M.throw] at h1
  | num n =>
      unfold fipUpdateAssigned at h
      simp only [bindDef, pureDef] at h
      obtain ⟨hasU, t1, h1, h⟩ := M.bind_ok h
      simp [pyContains, M.throw] at h1
  | str s3 =>
      unfold fipUpdateAssigned at h
      simp only [bindDef, pureDef] at h
      obtain ⟨hasU, t1, h1, h⟩ := M.bind_ok h
      by_cases hb : hasU = true
      · rw [if_pos hb] at h
        obtain ⟨atv, t2, h2, h⟩ := M.bind_ok h
        simp [vGet, M.throw] at h2
      · rw [if_neg hb] at h
        obtain ⟨hasM, t2, h2, h⟩ := M.bind_ok h
        by_cases hm2 : hasM = true
        · rw [if_pos hm2] at h
          obtain ⟨fs2, t3, h3, h⟩ := M.bind_ok h
          simp [asObj, M.throw] at h3
        · rw [if_neg hm2] at h
          unfold M.pure at h
          have h4 := congrArg Prod.fst h
          simp at h4
          exact Or.inl h4
  | list l =>
      unfold fipUpdateAssigned at h
      simp only [bindDef, pureDef] at h
      obtain ⟨hasU, t1, h1, h⟩ := M.bind_ok h
      by_cases hb : hasU = true
      · rw [if_pos hb] at h
        obtain ⟨atv, t2, h2, h⟩ := M.bind_ok h
        simp [vGet, M.throw] at h2
      · rw [if_neg hb] at h
        obtain ⟨hasM, t2, h2, h⟩ := M.bind_ok h
        by_cases hm2 : hasM = true
        · rw [if_pos hm2] at h
          obtain ⟨fs2, t3, h3, h⟩ := M.bind_ok h
          simp [asObj, M.throw] at h3
        · rw [if_neg hm2] at h
          unfold M.pure at h
          have h4 := congrArg Prod.fst h
          simp at h4
          exact Or.inl h4


theorem dUpdate_append (d l1 l2 : Dict) :
    dUpdate d (l1 ++ l2) = dUpdate (dUpdate d l1) l2 := by
  simp [dUpdate]

theorem fipInv_dUpdate_shape {d : Dict} {vmn : Value} {d2 : Dict} (h : fipInv d)
    (hd2 : d2 = [] ∨ ∃ atv apv, d2 = [("vm_name", vmn), ("assigned_to_vm_uuid", atv),
      ("private_ipv4_address", apv)] ∧ (atv = Value.str "" ↔ apv = Value.str "")) :
    fipInv (dUpdate d d2) := by
  rcases hd2 with h0 | ⟨atv, apv, heq, hsh⟩
  · rw [h0, dUpdate_nil]
    exact h
  · rw [heq, dUpdate_cons, dUpdate_cons, dUpdate_cons, dUpdate_nil]
    exact fipInv_set_pair _ hsh

theorem exitsInv_fipCreateFloatingIp (env : Env) (p : FipParams) (vm : Dict)
    (hwf : wfEnv env) : ExitsInv (fipCreateFloatingIp env p vm) fipInv := by
  unfold fipCreateFloatingIp
  simp only [bindDef, pureDef]
  refine exitsInv_bind2 (exitsInv_of_noExit (noExit_request _ _ _ _) _) (fun resp => ?_)
  refine exitsInv_bind2 (exitsInv_of_noExit (noExit_pyContains _ _) _) (fun hasU => ?_)
  refine exitsInv_ite (exitsInv_of_noExit (noExit_failJson _) _) ?_
  refine exitsInv_bind2 (exitsInv_of_noExit (noExit_vGet _ _) _) (fun u => ?_)
  refine exitsInv_bind2 (exitsInv_of_noExit (noExit_vGet _ _) _) (fun nm => ?_)
  refine exitsInv_bind2 (exitsInv_of_noExit (noExit_vGet _ _) _) (fun addr => ?_)
  refine exitsInv_bind2 (exitsInv_of_noExit (noExit_vGet _ _) _) (fun en => ?_)
  refine exitsInv_bind (exitsInv_of_noExit ?_ _) pairOk ?_ (fun dataResponse hdr => ?_)
  · exact exitsInv_ite
      (noExit_bind (noExit_dGet _ _) (fun vmu => noExit_fipAssignToVm _ _ _ _))
      (noExit_pure _)
  · intro s a s1 hsa
    by_cases hc : (dFind vm "uuid").isSome = true
    · rw [if_pos hc] at hsa
      obtain ⟨vmu, t1, h1, h2⟩ := M.bind_ok hsa
      exact fipAssignToVm_pairOk hwf h2
    · rw [if_neg hc] at hsa
      unfold M.pure at hsa
      have h1 := congrArg Prod.fst hsa
      simp at h1
      rw [← h1]
      simp [pairOk, emptyishD, dFind]
  · refine exitsInv_bind2 (exitsInv_of_noExit (noExit_dGet _ _) _) (fun vmn => ?_)
    refine exitsInv_bind (exitsInv_of_noExit (noExit_fipUpdateAssigned _ _) _)
      (fun d2 => d2 = [] ∨ ∃ atv apv, d2 = [("vm_name", vmn),
        ("assigned_to_vm_uuid", atv), ("private_ipv4_address", apv)] ∧
        (atv = Value.str "" ↔ apv = Value.str ""))
      (fun s a s1 hsa => fipUpdateAssigned_shape hdr hsa) (fun d2 hd2 => ?_)
    refine exitsInv_exitJson (fipInv_exitPayload (fipInv_dUpdate_shape ?_ hd2))
    simp [fipInv, emptyishD, dFind]

theorem exitsInv_fipMain (env : Env) (p : FipParams) (hwf : wfEnv env) :
    ExitsInv (fipMain env p) fipInv := by
  unfold fipMain
  simp only [bindDef, pureDef]
  refine exitsInv_bind (exitsInv_of_noExit (noExit_getPublicIpv4 _ _ _ _ _) _)
    fipInvV (fun s a s1 hsa => getPublicIpv4_inv hwf hsa) (fun floatingIp hfi => ?_)
  refine exitsInv_bind2 (exitsInv_of_noExit (exitsInv_ite
    (noExit_bind (noExit_getVm _ _ _ _ _) (fun vm0 =>
      exitsInv_ite (noExit_failJson _) (noExit_pure _)))
    (noExit_pure _)) _) (fun vm => ?_)
  refine exitsInv_ite ?_ ?_
  · refine exitsInv_bind2 (exitsInv_of_noExit (noExit_pyContains _ _) _) (fun hasU => ?_)
    refine exitsInv_ite ?_ (exitsInv_fipCreateFloatingIp _ _ _ hwf)
    refine exitsInv_bind (exitsInv_of_noExit (noExit_asObj _) _)
      (fun fi0 => floatingIp = Value.obj fi0)
      (fun s a s1 hsa => asObj_ok hsa) (fun fi0 hfi0 => ?_)
    have hinv0 : fipInv fi0 := by rw [hfi0] at hfi; exact hfi
    have hinv1 : fipInv (dUpdate fi0
        [("vm_name", if p.vmName.isNull then Value.str "" else p.vmName),
         ("changed", Value.bool false)]) := by
      rw [dUpdate_cons, dUpdate_cons, dUpdate_nil]
      exact fipInv_dSet_other (fipInv_dSet_other hinv0 (by decide) (by decide))
        (by decide) (by decide)
    refine exitsInv_ite ?_ (exitsInv_exitJson (fipInv_exitPayload hinv1))
    refine exitsInv_bind2 (exitsInv_of_noExit (noExit_dGet _ _) _) (fun atv => ?_)
    refine exitsInv_ite ?_ (exitsInv_exitJson (fipInv_exitPayload hinv1))
    refine exitsInv_bind2 (exitsInv_of_noExit (noExit_dGet _ _) _) (fun pub => ?_)
    refine exitsInv_bind2 (exitsInv_of_noExit (noExit_dGet _ _) _) (fun vmu => ?_)
    refine exitsInv_bind (exitsInv_of_noExit (noExit_fipAssignToVm _ _ _ _) _)
      pairOk (fun s a s1 hsa => fipAssignToVm_pairOk hwf hsa)
      (fun dataResponse hdr => ?_)
    refine exitsInv_bind2 (exitsInv_of_noExit (noExit_dGet _ _) _) (fun vmn => ?_)
    refine exitsInv_bind (exitsInv_of_noExit (noExit_fipUpdateAssigned _ _) _)
      (fun d2 => d2 = [] ∨ ∃ atv2 apv2, d2 = [("vm_name", vmn),
        ("assigned_to_vm_uuid", atv2), ("private_ipv4_address", apv2)] ∧
        (atv2 = Value.str "" ↔ apv2 = Value.str ""))
      (fun s a s1 hsa => fipUpdateAssigned_shape hdr hsa) (fun d2 hd2 => ?_)
    refine exitsInv_exitJson (fipInv_exitPayload ?_)
    rw [dUpdate_append, dUpdate_single]
    exact fipInv_dSet_other (fipInv_dUpdate_shape hinv1 hd2) (by decide) (by decide)
  · refine exitsInv_ite ?_ ?_
    · refine exitsInv_bind2 (exitsInv_of_noExit (noExit_pyContains _ _) _)
        (fun hasU => ?_)
      refine exitsInv_ite ?_ ?_
      · refine exitsInv_bind (exitsInv_of_noExit (noExit_asObj _) _)
          (fun fi0 => floatingIp = Value.obj fi0)
          (fun s a s1 hsa => asObj_ok hsa) (fun fi0 hfi0 => ?_)
        have hinv0 : fipInv fi0 := by rw [hfi0] at hfi; exact hfi
        refine exitsInv_bind2 (exitsInv_of_noExit (noExit_dGet _ _) _) (fun pub => ?_)
        refine exitsInv_bind2 (exitsInv_of_noExit (noExit_deletePublicIpv4 _ _ _) _)
          (fun x => ?_)
        refine exitsInv_exitJson (fipInv_exitPayload ?_)
        rw [dUpdate_single]
        exact fipInv_dSet_other hinv0 (by decide) (by decide)
      · refine exitsInv_bind (exitsInv_of_noExit (noExit_asObj _) _)
          (fun fi0 => floatingIp = Value.obj fi0)
          (fun s a s1 hsa => asObj_ok hsa) (fun fi0 hfi0 => ?_)
        have hinv0 : fipInv fi0 := by rw [hfi0] at hfi; exact hfi
        refine exitsInv_exitJson (fipInv_exitPayload ?_)
        rw [dUpdate_single]
        exact fipInv_dSet_other hinv0 (by decide) (by decide)
    · refine exitsInv_ite ?_ ?_
      · refine exitsInv_bind2 (exitsInv_of_noExit (noExit_pyContains _ _) _)
          (fun hasU => ?_)
        refine exitsInv_ite ?_ ?_
        · refine exitsInv_bind (exitsInv_of_noExit (noExit_asObj _) _)
            (fun fi0 => floatingIp = Value.obj fi0)
            (fun s a s1 hsa => asObj_ok hsa) (fun fi0 hfi0 => ?_)
          have hinv0 : fipInv fi0 := by rw [hfi0] at hfi; exact hfi
          refine exitsInv_bind2 (exitsInv_of_noExit (noExit_dGet _ _) _) (fun pub => ?_)
          refine exitsInv_bind (exitsInv_of_noExit (noExit_fipUnassignFromVm _ _ _) _)
            pairOk (fun s a s1 hsa => fipUnassignFromVm_pairOk hsa)
            (fun dataResponse hdr => ?_)
          refine exitsInv_bind (exitsInv_of_noExit (noExit_fipUpdateAssigned _ _) _)
            (fun d2 => d2 = [] ∨ ∃ atv2 apv2, d2 = [("vm_name", Value.str ""),
              ("assigned_to_vm_uuid", atv2), ("private_ipv4_address", apv2)] ∧
              (atv2 = Value.str "" ↔ apv2 = Value.str ""))
            (fun s a s1 hsa => fipUpdateAssigned_shape hdr hsa) (fun d2 hd2 => ?_)
          refine exitsInv_bind2 (exitsInv_of_noExit (noExit_dGet _ _) _) (fun atv => ?_)
          refine exitsInv_exitJson (fipInv_exitPayload ?_)
          rw [dUpdate_append, dUpdate_single]
          exact fipInv_dSet_other (fipInv_dUpdate_shape hinv0 hd2) (by decide) (by decide)
        · refine exitsInv_bind (exitsInv_of_noExit (noExit_asObj _) _)
            (fun fi0 => floatingIp = Value.obj fi0)
            (fun s a s1 hsa => asObj_ok hsa) (fun fi0 hfi0 => ?_)
          have hinv0 : fipInv fi0 := by rw [hfi0] at hfi; exact hfi
          refine exitsInv_exitJson (fipInv_exitPayload ?_)
          rw [dUpdate_single]
          exact fipInv_dSet_other hinv0 (by decide) (by decide)
      · refine exitsInv_bind (exitsInv_of_noExit (noExit_asObj _) _)
          (fun fi0 => floatingIp = Value.obj fi0)
          (fun s a s1 hsa => asObj_ok hsa) (fun fi0 hfi0 => ?_)
        have hinv0 : fipInv fi0 := by rw [hfi0] at hfi; exact hfi
        exact exitsInv_exitJson (fipInv_exitPayload hinv0)

/-! ### Claim C1 -/

/-- C1 counterexample: desired state `unassign` on a floating IP that is
already unassigned reports `changed=false` — but it still issues a mutating
call: the unassign POST is sent unconditionally, refuting the claim that the
already-matching branch performs no mutating call. -/
theorem c1_idempotent_noop_counterexample :
    runM (fipMain
      (fun i => if i = 0 then ⟨200, .list [.obj [("uuid", .str "u1"),
          ("name", .str "fip1"), ("address", .str "1.2.3.4"),
          ("enabled", .bool true)]]⟩
        else ⟨200, .obj [("uuid", .str "u1")]⟩)
      ⟨"jkt01", .str "fip1", .null, "unassign"⟩) =
      (.error (.exitJson [("uuid", .str "u1"), ("name", .str "fip1"),
        ("public_ipv4", .str "1.2.3.4"), ("assigned_to_vm_uuid", .str ""),
        ("private_ipv4_address", .str ""), ("enabled", .bool true),
        ("vm_name", .str ""), ("changed", .bool false)]),
       ⟨2, [⟨"GET", initUrl "jkt01" "network/ip_addresses", []⟩,
            ⟨"POST", initUrl "jkt01" "network/ip_addresses/1.2.3.4/unassign", []⟩]⟩) :=
  rfl

/-- C1 as amended: when the observed remote state already matches the desired
state, the second invocation reports `changed=false` with the observed entity
fields, and issues only read-only GET lookups — except the FloatingIP
`unassign` branch, which still reports `changed=false` and unchanged
association fields but sends the unassign POST unconditionally.  Branches:
(1) network present+found, (2) network absent+not-found, (3) VM
present+found, (4) VM absent+not-found, (5) floating IP present+found with no
VM requested, (6) floating IP absent+not-found, (7) floating IP
unassign+already-unassigned (the deviating branch: one GET plus the unassign
POST). -/
theorem c1_idempotent_noop_branches :
    (∀ (env : Env) (loc nmS : String) (uV sbV dfV : Value),
       env 0 = ⟨200, .list [.obj [("uuid", uV), ("name", .str nmS),
         ("subnet", sbV), ("is_default", dfV)]]⟩ →
       runM (networkMain env ⟨loc, .str nmS, "present"⟩) =
         (.error (.exitJson [("uuid", uV), ("name", .str nmS), ("subnet", sbV),
           ("is_default", dfV), ("changed", .bool false)]),
          ⟨1, [⟨"GET", initUrl loc "network/networks", []⟩]⟩))
  ∧ (∀ (env : Env) (loc : String) (nmV : Value),
       env 0 = ⟨200, .list []⟩ →
       runM (networkMain env ⟨loc, nmV, "absent"⟩) =
         (.error (.exitJson [("changed", .bool false)]),
          ⟨1, [⟨"GET", initUrl loc "network/networks", []⟩]⟩))
  ∧ (∀ (env : Env) (p : VmParams) (nmS uuS pipS : String)
       (uuV pipV duV addrV ipuV hnV vcV mvV baV stV szV : Value),
       p.state = "present" → p.name = .str nmS →
       uuV = .str uuS → pipV = .str pipS →
       env 0 = ⟨200, .list [.obj [("uuid", uuV), ("name", .str nmS),
         ("hostname", hnV), ("storage", .list [.obj [("primary", .bool true),
           ("size", szV), ("uuid", duV)]]), ("vcpu", vcV), ("memory", mvV),
         ("private_ipv4", pipV), ("billing_account", baV), ("status", stV)]]⟩ →
       env 1 = ⟨200, .list [.obj [("uuid", ipuV), ("address", addrV),
         ("assigned_to", uuV), ("assigned_to_private_ip", pipV),
         ("enabled", .bool true)]]⟩ →
       runM (vmMain env p) =
         (.error (.exitJson [("uuid", uuV), ("name", .str nmS),
           ("hostname", hnV), ("disks", szV), ("disk_uuid", duV),
           ("vcpu", vcV), ("ram", mvV), ("private_ipv4", pipV),
           ("public_ipv4", addrV), ("billing_account", baV), ("status", stV),
           ("changed", .bool false)]),
          ⟨2, [⟨"GET", initUrl p.location "user-resource/vm/list", []⟩,
               ⟨"GET", initUrl p.location "network/ip_addresses", []⟩]⟩))
  ∧ (∀ (env : Env) (p : VmParams), p.state = "absent" →
       env 0 = ⟨200, .list []⟩ →
       runM (vmMain env p) =
         (.error (.exitJson [("changed", .bool false)]),
          ⟨1, [⟨"GET", initUrl p.location "user-resource/vm/list", []⟩]⟩))
  ∧ (∀ (env : Env) (loc nmS : String) (ipuV addrV enV : Value),
       env 0 = ⟨200, .list [.obj [("uuid", ipuV), ("name", .str nmS),
         ("address", addrV), ("enabled", enV)]]⟩ →
       runM (fipMain env ⟨loc, .str nmS, .null, "present"⟩) =
         (.error (.exitJson [("uuid", ipuV), ("name", .str nmS),
           ("public_ipv4", addrV), ("assigned_to_vm_uuid", .str ""),
           ("private_ipv4_address", .str ""), ("enabled", enV),
           ("vm_name", .str ""), ("changed", .bool false)]),
          ⟨1, [⟨"GET", initUrl loc "network/ip_addresses", []⟩]⟩))
  ∧ (∀ (env : Env) (loc nmS otherS : String) (xV aV eV : Value),
       (otherS == nmS) = false →
       env 0 = ⟨200, .list [.obj [("uuid", xV), ("name", .str otherS),
         ("address", aV), ("enabled", eV)]]⟩ →
       runM (fipMain env ⟨loc, .str nmS, .null, "absent"⟩) =
         (.error (.exitJson [("changed", .bool false)]),
          ⟨1, [⟨"GET", initUrl loc "network/ip_addresses", []⟩]⟩))
  ∧ (∀ (env : Env) (loc nmS addrS : String) (ipuV enV ruV : Value),
       env 0 = ⟨200, .list [.obj [("uuid", ipuV), ("name", .str nmS),
         ("address", .str addrS), ("enabled", enV)]]⟩ →
       env 1 = ⟨200, .obj [("uuid", ruV)]⟩ →
       runM (fipMain env ⟨loc, .str nmS, .null, "unassign"⟩) =
         (.error (.exitJson [("uuid", ipuV), ("name", .str nmS),
           ("public_ipv4", .str addrS), ("assigned_to_vm_uuid", .str ""),
           ("private_ipv4_address", .str ""), ("enabled", enV),
           ("vm_name", .str ""), ("changed", .bool false)]),
          ⟨2, [⟨"GET", initUrl loc "network/ip_addresses", []⟩,
               ⟨"POST", initUrl loc ("network/ip_addresses/" ++ addrS ++ "/unassign"),
                []⟩]⟩)) := by
  refine ⟨?_, ?_, ?_, ?_, ?_, ?_, ?_⟩
  · intro env loc nmS uV sbV dfV henv0
    simp [runM, networkMain, networkGetExistingByName, scanNetworks, bindDef,
      pureDef, M.bind, M.pure, M.throw, request, dGet, dFind, vGet, pyContains,
      dUpdate, dSet, exitJson, henv0, Value.pyEq, beq_self_eq_true]
  · intro env loc nmV henv0
    simp [runM, networkMain, networkGetExistingByName, scanNetworks, bindDef,
      pureDef, M.bind, M.pure, M.throw, request, dGet, dFind, vGet, pyContains,
      dUpdate, dSet, exitJson, henv0]
  · intro env p nmS uuS pipS uuV pipV duV addrV ipuV hnV vcV mvV baV stV szV
      hstate hname huu hpip henv0 henv1
    simp [runM, vmMain, getVm, scanVms, constructVmData, getPublicIpv4, scanIps,
      scanIpsHit, fieldOrEmpty, scanStorage, bindDef, pureDef, M.bind, M.pure,
      M.throw, request, dGet, dFind, vGet, pyContains, dUpdate, dSet, exitJson,
      henv0, henv1, hstate, hname, huu, hpip, Value.pyEq, Value.truthy,
      beq_self_eq_true]
  · intro env p hstate henv0
    simp [runM, vmMain, getVm, bindDef, pureDef, M.bind, M.pure, M.throw,
      request, dGet, dFind, dUpdate, dSet, exitJson, henv0, hstate]
  · intro env loc nmS ipuV addrV enV henv0
    simp [runM, fipMain, getPublicIpv4, scanIps, scanIpsHit, fieldOrEmpty,
      asObj, bindDef, pureDef, M.bind, M.pure, M.throw, request, dGet, dFind,
      vGet, pyContains, dUpdate, dSet, exitJson, henv0, Value.pyEq,
      Value.isNull, beq_self_eq_true]
  · intro env loc nmS otherS xV aV eV hne henv0
    simp [runM, fipMain, getPublicIpv4, scanIps, scanIpsHit, fieldOrEmpty,
      asObj, bindDef, pureDef, M.bind, M.pure, M.throw, request, dGet, dFind,
      vGet, pyContains, dUpdate, dSet, exitJson, henv0, hne, Value.pyEq,
      Value.isNull]
  · intro env loc nmS addrS ipuV enV ruV henv0 henv1
    simp [runM, fipMain, getPublicIpv4, scanIps, scanIpsHit, fieldOrEmpty,
      fipUnassignFromVm, fipUpdateAssigned, asObj, bindDef, pureDef, M.bind,
      M.pure, M.throw, request, dGet, dFind, vGet, pyContains, dUpdate, dSet,
      exitJson, henv0, henv1, Value.pyEq, Value.pyStr, Value.isNull,
      beq_self_eq_true]

/-- C1 witness: concrete second invocations for all seven branches. -/
theorem c1_idempotent_noop_branches_witness :
    runM (networkMain (fun _ => ⟨200, .list [.obj [("uuid", .str "nu"),
        ("name", .str "net1"), ("subnet", .str "10.0.0.0/24"),
        ("is_default", .bool true)]]⟩) ⟨"jkt01", .str "net1", "present"⟩) =
      (.error (.exitJson [("uuid", .str "nu"), ("name", .str "net1"),
        ("subnet", .str "10.0.0.0/24"), ("is_default", .bool true),
        ("changed", .bool false)]),
       ⟨1, [⟨"GET", initUrl "jkt01" "network/networks", []⟩]⟩)
  ∧ runM (networkMain (fun _ => ⟨200, .list []⟩) ⟨"jkt01", .str "net1", "absent"⟩) =
      (.error (.exitJson [("changed", .bool false)]),
       ⟨1, [⟨"GET", initUrl "jkt01" "network/networks", []⟩]⟩)
  ∧ (runM (vmMain
        (fun i => if i = 0 then ⟨200, .list [.obj [("uuid", .str "vmu"),
            ("name", .str "vm1"), ("hostname", .str "h"),
            ("storage", .list [.obj [("primary", .bool true), ("size", .num 20),
              ("uuid", .str "du")]]), ("vcpu", .num 2), ("memory", .num 2048),
            ("private_ipv4", .str "10.0.0.5"), ("billing_account", .num 7),
            ("status", .str "running")]]⟩
          else ⟨200, .list [.obj [("uuid", .str "ipu"),
            ("address", .str "1.2.3.4"), ("assigned_to", .str "vmu"),
            ("assigned_to_private_ip", .str "10.0.0.5"),
            ("enabled", .bool true)]]⟩)
        ⟨"jkt01", .null, .str "vm1", .null, .null, .num 20, .num 2, .num 2048,
         .null, .null, .null, "present"⟩) =
        (.error (.exitJson [("uuid", .str "vmu"), ("name", .str "vm1"),
          ("hostname", .str "h"), ("disks", .num 20), ("disk_uuid", .str "du"),
          ("vcpu", .num 2), ("ram", .num 2048), ("private_ipv4", .str "10.0.0.5"),
          ("public_ipv4", .str "1.2.3.4"), ("billing_account", .num 7),
          ("status", .str "running"), ("changed", .bool false)]),
         ⟨2, [⟨"GET", initUrl "jkt01" "user-resource/vm/list", []⟩,
              ⟨"GET", initUrl "jkt01" "network/ip_addresses", []⟩]⟩))
  ∧ runM (vmMain (fun _ => ⟨200, .list []⟩)
      ⟨"jkt01", .null, .str "vm1", .null, .null, .null, .null, .null, .null,
       .null, .bool true, "absent"⟩) =
      (.error (.exitJson [("changed", .bool false)]),
       ⟨1, [⟨"GET", initUrl "jkt01" "user-resource/vm/list", []⟩]⟩)
  ∧ runM (fipMain (fun _ => ⟨200, .list [.obj [("uuid", .str "u1"),
        ("name", .str "fip1"), ("address", .str "1.2.3.4"),
        ("enabled", .bool true)]]⟩) ⟨"jkt01", .str "fip1", .null, "present"⟩) =
      (.error (.exitJson [("uuid", .str "u1"), ("name", .str "fip1"),
        ("public_ipv4", .str "1.2.3.4"), ("assigned_to_vm_uuid", .str ""),
        ("private_ipv4_address", .str ""), ("enabled", .bool true),
        ("vm_name", .str ""), ("changed", .bool false)]),
       ⟨1, [⟨"GET", initUrl "jkt01" "network/ip_addresses", []⟩]⟩)
  ∧ runM (fipMain (fun _ => ⟨200, .list [.obj [("uuid", .str "u2"),
        ("name", .str "other"), ("address", .str "9.9.9.9"),
        ("enabled", .bool true)]]⟩) ⟨"jkt01", .str "fip1", .null, "absent"⟩) =
      (.error (.exitJson [("changed", .bool false)]),
       ⟨1, [⟨"GET", initUrl "jkt01" "network/ip_addresses", []⟩]⟩)
  ∧ runM (fipMain
      (fun i => if i = 0 then ⟨200, .list [.obj [("uuid", .str "u1"),
          ("name", .str "fip1"), ("address", .str "1.2.3.4"),
          ("enabled", .bool true)]]⟩
        else ⟨200, .obj [("uuid", .str "u1")]⟩)
      ⟨"jkt01", .str "fip1", .null, "unassign"⟩) =
      (.error (.exitJson [("uuid", .str "u1"), ("name", .str "fip1"),
        ("public_ipv4", .str "1.2.3.4"), ("assigned_to_vm_uuid", .str ""),
        ("private_ipv4_address", .str ""), ("enabled", .bool true),
        ("vm_name", .str ""), ("changed", .bool false)]),
       ⟨2, [⟨"GET", initUrl "jkt01" "network/ip_addresses", []⟩,
            ⟨"POST", initUrl "jkt01" ("network/ip_addresses/" ++ "1.2.3.4" ++ "/unassign"),
             []⟩]⟩) := by
  refine ⟨?_, ?_, ?_, ?_, ?_, ?_, ?_⟩
  · exact c1_idempotent_noop_branches.1 (fun _ => ⟨200, .list [.obj
      [("uuid", .str "nu"), ("name", .str "net1"), ("subnet", .str "10.0.0.0/24"),
       ("is_default", .bool true)]]⟩) "jkt01" "net1" (.str "nu")
      (.str "10.0.0.0/24") (.bool true) rfl
  · exact c1_idempotent_noop_branches.2.1 (fun _ => ⟨200, .list []⟩) "jkt01"
      (.str "net1") rfl
  · exact c1_idempotent_noop_branches.2.2.1
      (fun i => if i = 0 then ⟨200, .list [.obj [("uuid", .str "vmu"),
          ("name", .str "vm1"), ("hostname", .str "h"),
          ("storage", .list [.obj [("primary", .bool true), ("size", .num 20),
            ("uuid", .str "du")]]), ("vcpu", .num 2), ("memory", .num 2048),
          ("private_ipv4", .str "10.0.0.5"), ("billing_account", .num 7),
          ("status", .str "running")]]⟩
        else ⟨200, .list [.obj [("uuid", .str "ipu"),
          ("address", .str "1.2.3.4"), ("assigned_to", .str "vmu"),
          ("assigned_to_private_ip", .str "10.0.0.5"),
          ("enabled", .bool true)]]⟩)
      ⟨"jkt01", .null, .str "vm1", .null, .null, .num 20, .num 2, .num 2048,
       .null, .null, .null, "present"⟩
      "vm1" "vmu" "10.0.0.5" (.str "vmu") (.str "10.0.0.5") (.str "du")
      (.str "1.2.3.4") (.str "ipu") (.str "h") (.num 2) (.num 2048) (.num 7)
      (.str "running") (.num 20) rfl rfl rfl rfl rfl rfl
  · exact c1_idempotent_noop_branches.2.2.2.1 (fun _ => ⟨200, .list []⟩)
      ⟨"jkt01", .null, .str "vm1", .null, .null, .null, .null, .null, .null,
       .null, .bool true, "absent"⟩ rfl rfl
  · exact c1_idempotent_noop_branches.2.2.2.2.1 (fun _ => ⟨200, .list [.obj
      [("uuid", .str "u1"), ("name", .str "fip1"), ("address", .str "1.2.3.4"),
       ("enabled", .bool true)]]⟩) "jkt01" "fip1" (.str "u1") (.str "1.2.3.4")
      (.bool true) rfl
  · exact c1_idempotent_noop_branches.2.2.2.2.2.1 (fun _ => ⟨200, .list [.obj
      [("uuid", .str "u2"), ("name", .str "other"), ("address", .str "9.9.9.9"),
       ("enabled", .bool true)]]⟩) "jkt01" "fip1" "other" (.str "u2")
      (.str "9.9.9.9") (.bool true) rfl rfl
  · exact c1_idempotent_noop_branches.2.2.2.2.2.2
      (fun i => if i = 0 then ⟨200, .list [.obj [("uuid", .str "u1"),
          ("name", .str "fip1"), ("address", .str "1.2.3.4"),
          ("enabled", .bool true)]]⟩
        else ⟨200, .obj [("uuid", .str "u1")]⟩)
      "jkt01" "fip1" "1.2.3.4" (.str "u1") (.bool true) (.str "u1") rfl rfl

/-! ### Claim C3 -/

/-- C3 counterexample: creating `vm1` with the invalid pair
os_name=ubuntu/os_version=9.x does fail with the locally synthesized
validation envelope, but only after two HTTP requests (the VM-list GET and
the network-list GET) have already been issued — refuting the claim that no
HTTP request of any kind precedes the os_name/os_version validation. -/
theorem c3_validation_counterexample :
    runM (vmMain
      (fun i => if i = 0 then ⟨200, .list []⟩
        else ⟨200, .list [.obj [("uuid", .str "nu"), ("name", .str "net1"),
          ("subnet", .str "10.0.0.0/24"), ("is_default", .bool true)]]⟩)
      ⟨"jkt01", .str "net1", .str "vm1", .str "ubuntu", .str "9.x", .num 20,
       .num 2, .num 2048, .str "adm", .str "pw", .null, "present"⟩) =
      (.error (.failJson [("msg", .str "Failed to create the VM."),
        ("error", .str "Selected os_name is ubuntu then os_version must be one of [list], got 9.x")]),
       ⟨2, [⟨"GET", initUrl "jkt01" "user-resource/vm/list", []⟩,
            ⟨"GET", initUrl "jkt01" "network/networks", []⟩]⟩) := rfl

/-- C3 as amended: with the VM absent, the requested network found, and an
os_version outside the allowed set for the chosen os_name, `Vm.main` fails
with the locally synthesized validation envelope before any *mutating*
transport call — the only requests issued are the two read-only GETs (VM
list, network list), and in particular the creation POST is never sent. -/
theorem c3_validation_before_mutation
    (env : Env) (p : VmParams) (osn osv nuS netS sbS : String) (dfV : Value)
    (vers : List Value)
    (hstate : p.state = "present") (hnet : p.networkName = .str netS)
    (hosn : p.osName = .str osn) (hosv : p.osVersion = .str osv)
    (hch : dFind osVersionChoices osn = some (.list vers))
    (hbad : (vers.any fun x => Value.pyEq x (.str osv)) = false)
    (henv0 : env 0 = ⟨200, .list []⟩)
    (henv1 : env 1 = ⟨200, .list [.obj [("uuid", .str nuS), ("name", .str netS),
      ("subnet", .str sbS), ("is_default", dfV)]]⟩) :
    runM (vmMain env p) =
      (.error (.failJson [("msg", .str "Failed to create the VM."),
        ("error", .str ("Selected os_name is " ++ osn ++
          " then os_version must be one of " ++ "[list]" ++ ", got " ++ osv))]),
       ⟨2, [⟨"GET", initUrl p.location "user-resource/vm/list", []⟩,
            ⟨"GET", initUrl p.location "network/networks", []⟩]⟩) := by
  have h1 : getVm env p.location Value.null p.name true ⟨0, []⟩ =
      (.ok [], ⟨1, [⟨"GET", initUrl p.location "user-resource/vm/list", []⟩]⟩) := by
    simp [getVm, bindDef, pureDef, M.bind, M.pure, request, henv0]
  have h2 : vmGetNetwork env p
      ⟨1, [⟨"GET", initUrl p.location "user-resource/vm/list", []⟩]⟩ =
      (.ok [("uuid", Value.str nuS), ("name", Value.str netS),
            ("subnet", Value.str sbS), ("is_default", dfV)],
       ⟨2, [⟨"GET", initUrl p.location "user-resource/vm/list", []⟩,
            ⟨"GET", initUrl p.location "network/networks", []⟩]⟩) := by
    simp [vmGetNetwork, getExistingNetwork, scanNetworks, bindDef, pureDef,
      M.bind, M.pure, request, henv1, hnet, dFind, dGet, vGet, Value.pyEq,
      failJson]
  have h3 : ∀ s : Trace, dGet osVersionChoices osn s = (.ok (.list vers), s) := by
    intro s
    simp [dGet, hch]
  simp [runM, vmMain, vmCreateVm, bindDef, pureDef, M.bind, M.pure, M.throw,
    h1, h2, h3, hstate, hosn, hosv, hbad, dFind, failJson, Value.pyStr]

/-- C3 witness: the amended theorem applied at the concrete ubuntu/9.x
invocation. -/
theorem c3_validation_before_mutation_witness :
    runM (vmMain
      (fun i => if i = 0 then ⟨200, .list []⟩
        else ⟨200, .list [.obj [("uuid", .str "nu"), ("name", .str "net1"),
          ("subnet", .str "10.0.0.0/24"), ("is_default", .bool true)]]⟩)
      ⟨"jkt01", .str "net1", .str "vm1", .str "ubuntu", .str "9.x", .num 20,
       .num 2, .num 2048, .str "adm", .str "pw", .null, "present"⟩) =
      (.error (.failJson [("msg", .str "Failed to create the VM."),
        ("error", .str ("Selected os_name is " ++ "ubuntu" ++
          " then os_version must be one of " ++ "[list]" ++ ", got " ++ "9.x"))]),
       ⟨2, [⟨"GET", initUrl "jkt01" "user-resource/vm/list", []⟩,
            ⟨"GET", initUrl "jkt01" "network/networks", []⟩]⟩) :=
  c3_validation_before_mutation
    (fun i => if i = 0 then ⟨200, .list []⟩
      else ⟨200, .list [.obj [("uuid", .str "nu"), ("name", .str "net1"),
        ("subnet", .str "10.0.0.0/24"), ("is_default", .bool true)]]⟩)
    ⟨"jkt01", .str "net1", .str "vm1", .str "ubuntu", .str "9.x", .num 20,
     .num 2, .num 2048, .str "adm", .str "pw", .null, "present"⟩
    "ubuntu" "9.x" "nu" "net1" "10.0.0.0/24" (.bool true)
    [.str "21.04", .str "22.04-lts", .str "24.04-lts", .str "20.04-lts"]
    rfl rfl rfl rfl rfl rfl rfl rfl

/-! ### Claim C4 -/

/-- C4: the claim states every locator lookup returns the empty mapping (never
None) on an empty, non-list, or matchless collection.  The network and VM
locators do, but `Base._get_public_ipv4` falls off its end and returns Python
None when the collection is empty or not a list (its `return dict()` sits
inside the `isinstance` branch), and the VM-record constructor then crashes
with a TypeError on `'public_ipv4' not in None` — the `'uuid' in result`
idiom is not well-defined there.  This theorem exhibits the divergence at the
failing inputs. -/
theorem c4_public_ipv4_locator_returns_none :
    (runM (getPublicIpv4 (fun _ => ⟨200, .list []⟩) "jkt01" .null .null (.str "fip1"))).1 =
      .ok .null
  ∧ (runM (getPublicIpv4 (fun _ => ⟨200, .obj [("error", .str "x")]⟩) "jkt01"
      .null .null (.str "fip1"))).1 = .ok .null
  ∧ (runM (getExistingNetwork (fun _ => ⟨200, .list []⟩) "jkt01" (.str "n1"))).1 =
      .ok []
  ∧ (runM (getExistingNetwork (fun _ => ⟨200, .obj [("error", .str "x")]⟩) "jkt01"
      (.str "n1"))).1 = .ok []
  ∧ (runM (getVm (fun _ => ⟨200, .list []⟩) "jkt01" .null (.str "v1") true)).1 =
      .ok []
  ∧ (runM (getVm (fun _ => ⟨200, .obj [("error", .str "x")]⟩) "jkt01" .null
      (.str "v1") true)).1 = .ok []
  ∧ (runM (constructVmData (fun _ => ⟨200, .list []⟩) "jkt01"
      (.obj [("uuid", .str "vmu"), ("private_ipv4", .str "10.0.0.5")]) true)).1 =
      .error (.typeError "argument is not a container") :=
  ⟨rfl, rfl, rfl, rfl, rfl, rfl, rfl⟩

/-! ### Claim C7 -/

/-- C7: for every VM power operation, the start/stop POST is issued
unconditionally (exactly one call, whatever the response and even when the VM
is already in the desired state); on a success response the returned record's
`changed` flag equals (returned status ≠ status observed before the call);
and a response object without a `uuid` key is a hard failure through the
Error Envelope. -/
theorem c7_power_toggle :
    (∀ (env : Env) (p : VmParams) (active : Bool) (u vs : Value) (rest : Dict)
       (r : Resp), env 0 = r →
       (runM (vmActivateVm env p (("uuid", u) :: ("status", vs) :: rest) active)).2.calls =
         [⟨"POST", initUrl p.location ("user-resource/vm/" ++
            if active then "start" else "stop"), [("uuid", u)]⟩])
  ∧ (∀ (env : Env) (p : VmParams) (active : Bool) (u vs ru ds : Value)
       (rest fs : Dict) (code : Nat),
       env 0 = ⟨code, .obj (("uuid", ru) :: ("status", ds) :: fs)⟩ →
       (runM (vmActivateVm env p (("uuid", u) :: ("status", vs) :: rest) active)).1 =
         .ok (dSet (("uuid", u) :: ("status", vs) :: rest) "changed"
           (.bool (!(Value.pyEq ds vs))))
       ∧ (∀ vm2, (runM (vmActivateVm env p (("uuid", u) :: ("status", vs) :: rest)
            active)).1 = .ok vm2 →
          dFind vm2 "changed" = some (.bool (!(Value.pyEq ds vs)))))
  ∧ (∀ (env : Env) (p : VmParams) (active : Bool) (u vs : Value) (rest fs : Dict)
       (code : Nat),
       env 0 = ⟨code, .obj fs⟩ → dFind fs "uuid" = none →
       (runM (vmActivateVm env p (("uuid", u) :: ("status", vs) :: rest) active)).1 =
         .error (.failJson [("msg", .str ("Failed to " ++
           (if active then "start" else "stop") ++ " the VM.")), ("error", .obj fs)])) := by
  refine ⟨?_, ?_, ?_⟩
  · intro env p active u vs rest r henv
    unfold runM vmActivateVm
    simp only [bindDef, pureDef]
    rw [bind_ok_step (show dGet (("uuid", u) :: ("status", vs) :: rest) "uuid" ⟨0, []⟩ =
      (.ok u, ⟨0, []⟩) from rfl)]
    rw [run_request_then _ _ _ _ _ (fun r2 =>
      preserves_bind (preserves_pyContains _ _) (fun hasU =>
        preserves_ite
          (preserves_bind (preserves_vGet _ _) (fun ds =>
            preserves_bind (preserves_dGet _ _) (fun vs2 => preserves_pure _)))
          (preserves_failJson _)))]
    simp
  · intro env p active u vs ru ds rest fs code henv
    constructor
    · cases active <;>
        simp [runM, vmActivateVm, bindDef, pureDef, dGet, dFind, request, henv,
          pyContains, M.bind, M.pure, vGet, dUpdate, failJson, M.throw]
    · intro vm2 h2
      have hok : vm2 = dSet (("uuid", u) :: ("status", vs) :: rest) "changed"
          (.bool (!(Value.pyEq ds vs))) := by
        cases active <;>
          simp [runM, vmActivateVm, bindDef, pureDef, dGet, dFind, request, henv,
            pyContains, M.bind, M.pure, vGet, dUpdate, failJson, M.throw] at h2 <;>
          exact h2.symm
      rw [hok, dFind_dSet]
  · intro env p active u vs rest fs code henv hnone
    cases active <;>
      simp [runM, vmActivateVm, bindDef, pureDef, dGet, dFind, request, henv,
        pyContains, M.bind, M.pure, vGet, dUpdate, failJson, M.throw, hnone]

/-- C7 witness: the start call on a running VM with a success response whose
status is unchanged (changed=false), and the envelope on a uuid-less
response. -/
theorem c7_power_toggle_witness :
    (runM (vmActivateVm (fun _ => ⟨200, .obj [("uuid", .str "vmu"), ("status", .str "running")]⟩)
      ⟨"jkt01", .null, .str "vm1", .null, .null, .null, .null, .null, .null, .null, .null, "active"⟩
      [("uuid", .str "vmu"), ("status", .str "running")] true)).2.calls =
      [⟨"POST", initUrl "jkt01" "user-resource/vm/start", [("uuid", .str "vmu")]⟩]
  ∧ (runM (vmActivateVm (fun _ => ⟨200, .obj [("uuid", .str "vmu"), ("status", .str "running")]⟩)
      ⟨"jkt01", .null, .str "vm1", .null, .null, .null, .null, .null, .null, .null, .null, "active"⟩
      [("uuid", .str "vmu"), ("status", .str "running")] true)).1 =
      .ok (dSet [("uuid", Value.str "vmu"), ("status", Value.str "running")] "changed"
        (.bool (!(Value.pyEq (.str "running") (.str "running")))))
  ∧ (runM (vmActivateVm (fun _ => ⟨200, .obj [("error", .str "boom")]⟩)
      ⟨"jkt01", .null, .str "vm1", .null, .null, .null, .null, .null, .null, .null, .null, "active"⟩
      [("uuid", .str "vmu"), ("status", .str "running")] true)).1 =
      .error (.failJson [("msg", .str ("Failed to " ++ (if true then "start" else "stop") ++
        " the VM.")), ("error", .obj [("error", .str "boom")])]) := by
  refine ⟨?_, ?_, ?_⟩
  · exact c7_power_toggle.1 (fun _ => ⟨200, .obj [("uuid", .str "vmu"), ("status", .str "running")]⟩)
      ⟨"jkt01", .null, .str "vm1", .null, .null, .null, .null, .null, .null, .null, .null, "active"⟩
      true (.str "vmu") (.str "running") [] _ rfl
  · exact (c7_power_toggle.2.1 (fun _ => ⟨200, .obj [("uuid", .str "vmu"), ("status", .str "running")]⟩)
      ⟨"jkt01", .null, .str "vm1", .null, .null, .null, .null, .null, .null, .null, .null, "active"⟩
      true (.str "vmu") (.str "running") (.str "vmu") (.str "running") [] [] 200 rfl).1
  · exact c7_power_toggle.2.2 (fun _ => ⟨200, .obj [("error", .str "boom")]⟩)
      ⟨"jkt01", .null, .str "vm1", .null, .null, .null, .null, .null, .null, .null, .null, "active"⟩
      true (.str "vmu") (.str "running") [] [("error", .str "boom")] 200 rfl rfl

/-! ### Claim C2 -/

/-- C2: resizing an existing VM whose disks, vcpu and ram all differ issues
exactly the sequence [stop, PATCH ram/vcpu, PATCH disk-storage, start] — here
shown with both PATCHes failing (responses without `uuid`), which proves that
the ram/vcpu failure does not short-circuit the disk PATCH and, since the
ram/vcpu PATCH precedes the disk PATCH, that either failure leaves the
sibling attempted; both error payloads are accumulated into the single
terminal failure (`error_ram_vcpu` and `error_disks` inside the positional
`fail_json` message). -/
theorem c2_resize_order
    (env : Env) (p : VmParams)
    (u hnv dv duv vcv rv pv pubv bav stv ru0 st0 ru3 st3 : Value)
    (fs0 fs3 fsRam fsDisk : Dict) (c0 c1 c2 c3 : Nat)
    (hd : Value.pyEq p.disks dv = false)
    (hv : Value.pyEq p.vcpu vcv = false)
    (hr : Value.pyEq p.ram rv = false)
    (henv0 : env 0 = ⟨c0, .obj (("uuid", ru0) :: ("status", st0) :: fs0)⟩)
    (henv1 : env 1 = ⟨c1, .obj fsRam⟩) (hRam : dFind fsRam "uuid" = none)
    (henv2 : env 2 = ⟨c2, .obj fsDisk⟩) (hDisk : dFind fsDisk "uuid" = none)
    (henv3 : env 3 = ⟨c3, .obj (("uuid", ru3) :: ("status", st3) :: fs3)⟩) :
    runM (vmResizeVm env p
      [("uuid", u), ("name", p.name), ("hostname", hnv), ("disks", dv),
       ("disk_uuid", duv), ("vcpu", vcv), ("ram", rv), ("private_ipv4", pv),
       ("public_ipv4", pubv), ("billing_account", bav), ("status", stv),
       ("changed", .bool false)]) =
      (.error (.failJson [("msg", .obj
          [("error_ram_vcpu", .obj [("msg", .str "Failed to resize the VM."),
            ("errors", .obj fsRam)]),
           ("error_disks", .obj [("msg", .str "Failed to resize the VM."),
            ("errors", .obj fsDisk)])])]),
       ⟨4, [⟨"POST", initUrl p.location "user-resource/vm/stop", [("uuid", u)]⟩,
            ⟨"PATCH", initUrl p.location "user-resource/vm",
             [("uuid", u), ("name", p.name), ("vcpu", p.vcpu), ("ram", p.ram)]⟩,
            ⟨"PATCH", initUrl p.location "user-resource/vm/storage",
             [("uuid", u), ("disk_uuid", duv), ("size_gb", p.disks)]⟩,
            ⟨"POST", initUrl p.location "user-resource/vm/start", [("uuid", u)]⟩]⟩) := by
  simp [runM, vmResizeVm, vmActivateVm, vmResizeRamVcpu, vmResizeDisks, bindDef,
    pureDef, M.bind, M.pure, M.throw, request, dGet, dFind, vGet, pyContains,
    dUpdate, dSet, failJson, henv0, henv1, henv2, henv3, hd, hv, hr, hRam, hDisk]

/-- C2 witness: a concrete resize of a 20GB/2vcpu/2048MB running VM to
40GB/4vcpu/4096MB where both PATCHes are rejected. -/
theorem c2_resize_order_witness :
    runM (vmResizeVm
      (fun i => if i = 0 then ⟨200, .obj [("uuid", .str "vmu"), ("status", .str "stopped")]⟩
        else if i = 1 then ⟨400, .obj [("errors", .str "ram boom")]⟩
        else if i = 2 then ⟨400, .obj [("errors", .str "disk boom")]⟩
        else ⟨200, .obj [("uuid", .str "vmu"), ("status", .str "running")]⟩)
      ⟨"jkt01", .null, .str "vm1", .null, .null, .num 40, .num 4, .num 4096,
       .null, .null, .null, "resize"⟩
      [("uuid", .str "vmu"), ("name", .str "vm1"), ("hostname", .str "h"),
       ("disks", .num 20), ("disk_uuid", .str "du"), ("vcpu", .num 2),
       ("ram", .num 2048), ("private_ipv4", .str "10.0.0.5"),
       ("public_ipv4", .str ""), ("billing_account", .num 7),
       ("status", .str "running"), ("changed", .bool false)]) =
      (.error (.failJson [("msg", .obj
          [("error_ram_vcpu", .obj [("msg", .str "Failed to resize the VM."),
            ("errors", .obj [("errors", .str "ram boom")])]),
           ("error_disks", .obj [("msg", .str "Failed to resize the VM."),
            ("errors", .obj [("errors", .str "disk boom")])])])]),
       ⟨4, [⟨"POST", initUrl "jkt01" "user-resource/vm/stop", [("uuid", .str "vmu")]⟩,
            ⟨"PATCH", initUrl "jkt01" "user-resource/vm",
             [("uuid", .str "vmu"), ("name", .str "vm1"), ("vcpu", .num 4),
              ("ram", .num 4096)]⟩,
            ⟨"PATCH", initUrl "jkt01" "user-resource/vm/storage",
             [("uuid", .str "vmu"), ("disk_uuid", .str "du"), ("size_gb", .num 40)]⟩,
            ⟨"POST", initUrl "jkt01" "user-resource/vm/start", [("uuid", .str "vmu")]⟩]⟩) :=
  c2_resize_order
    (fun i => if i = 0 then ⟨200, .obj [("uuid", .str "vmu"), ("status", .str "stopped")]⟩
      else if i = 1 then ⟨400, .obj [("errors", .str "ram boom")]⟩
      else if i = 2 then ⟨400, .obj [("errors", .str "disk boom")]⟩
      else ⟨200, .obj [("uuid", .str "vmu"), ("status", .str "running")]⟩)
    ⟨"jkt01", .null, .str "vm1", .null, .null, .num 40, .num 4, .num 4096,
     .null, .null, .null, "resize"⟩
    (.str "vmu") (.str "h") (.num 20) (.str "du") (.num 2) (.num 2048)
    (.str "10.0.0.5") (.str "") (.num 7) (.str "running") (.str "vmu")
    (.str "stopped") (.str "vmu") (.str "running")
    [] [] [("errors", .str "ram boom")] [("errors", .str "disk boom")]
    200 400 400 200 rfl rfl rfl rfl rfl rfl rfl rfl rfl

/-! ### Claim C5 -/

/-- C5: deleting an existing VM issues the VM DELETE addressed by the VM uuid
and, when `remove_public_ipv4` is true and a floating IP is joined to the VM,
exactly one further mutating call — the floating-IP DELETE addressed by the
public IPv4 address (the uuid appears nowhere in that URL) — and exits with
`changed=true`; with `remove_public_ipv4` false the floating-IP DELETE is
skipped and the VM DELETE is the only mutating call. -/
theorem c5_cascade_delete
    (env : Env) (p p2 : VmParams)
    (uuS nmS pipS addrS : String)
    (uuV nmV pipV duV addrV ipuV hnV vcV mvV baV stV szV : Value)
    (huu : uuV = .str uuS) (hnm : nmV = .str nmS)
    (hpip : pipV = .str pipS) (haddr : addrV = .str addrS)
    (hstate : p.state = "absent") (hname : p.name = nmV)
    (hrm : p.removePublicIpv4 = .bool true)
    (hstate2 : p2.state = "absent") (hname2 : p2.name = nmV)
    (hrm2 : p2.removePublicIpv4 = .bool false) (hloc : p2.location = p.location)
    (henv0 : env 0 = ⟨200, .list [.obj [("uuid", uuV), ("name", nmV),
      ("hostname", hnV), ("storage", .list [.obj [("primary", .bool true),
        ("size", szV), ("uuid", duV)]]), ("vcpu", vcV), ("memory", mvV),
      ("private_ipv4", pipV), ("billing_account", baV), ("status", stV)]]⟩)
    (henv1 : env 1 = ⟨200, .list [.obj [("uuid", ipuV), ("address", addrV),
      ("assigned_to", uuV), ("assigned_to_private_ip", pipV),
      ("enabled", .bool true)]]⟩)
    (henv2 : env 2 = ⟨200, .obj []⟩) (henv3 : env 3 = ⟨200, .obj []⟩) :
    runM (vmMain env p) =
      (.error (.exitJson [("uuid", uuV), ("name", nmV), ("hostname", hnV),
        ("disks", szV), ("disk_uuid", duV), ("vcpu", vcV), ("ram", mvV),
        ("private_ipv4", pipV), ("public_ipv4", addrV),
        ("billing_account", baV), ("status", stV), ("changed", .bool true)]),
       ⟨4, [⟨"GET", initUrl p.location "user-resource/vm/list", []⟩,
            ⟨"GET", initUrl p.location "network/ip_addresses", []⟩,
            ⟨"DELETE", initUrl p.location "user-resource/vm", [("uuid", uuV)]⟩,
            ⟨"DELETE", initUrl p.location ("network/ip_addresses/" ++ addrS), []⟩]⟩)
  ∧ runM (vmMain env p2) =
      (.error (.exitJson [("uuid", uuV), ("name", nmV), ("hostname", hnV),
        ("disks", szV), ("disk_uuid", duV), ("vcpu", vcV), ("ram", mvV),
        ("private_ipv4", pipV), ("public_ipv4", addrV),
        ("billing_account", baV), ("status", stV), ("changed", .bool true)]),
       ⟨3, [⟨"GET", initUrl p.location "user-resource/vm/list", []⟩,
            ⟨"GET", initUrl p.location "network/ip_addresses", []⟩,
            ⟨"DELETE", initUrl p.location "user-resource/vm", [("uuid", uuV)]⟩]⟩) := by
  constructor
  · simp [runM, vmMain, getVm, scanVms, constructVmData, getPublicIpv4, scanIps,
      scanIpsHit, fieldOrEmpty, scanStorage, vmDeleteVm, deletePublicIpv4, bindDef, pureDef,
      M.bind, M.pure, M.throw, request, dGet, dFind, vGet, pyContains, dUpdate,
      dSet, failJson, exitJson, henv0, henv1, henv2, henv3, hstate, hname, hrm,
      huu, hnm, hpip, haddr, Value.pyEq, Value.truthy, Value.pyStr, Value.isNull]
  · simp [runM, vmMain, getVm, scanVms, constructVmData, getPublicIpv4, scanIps,
      scanIpsHit, fieldOrEmpty, scanStorage, vmDeleteVm, deletePublicIpv4, bindDef, pureDef,
      M.bind, M.pure, M.throw, request, dGet, dFind, vGet, pyContains, dUpdate,
      dSet, failJson, exitJson, henv0, henv1, henv2, henv3, hstate2, hname2, hrm2,
      hloc, huu, hnm, hpip, haddr, Value.pyEq, Value.truthy, Value.pyStr,
      Value.isNull]

/-- C5 witness: concrete cascade delete of vm1 (floating IP 1.2.3.4) with the
removal flag set, and the same delete with the flag unset. -/
theorem c5_cascade_delete_witness :
    runM (vmMain
      (fun i => if i = 0 then ⟨200, .list [.obj [("uuid", .str "vmu"),
          ("name", .str "vm1"), ("hostname", .str "h"),
          ("storage", .list [.obj [("primary", .bool true), ("size", .num 20),
            ("uuid", .str "du")]]), ("vcpu", .num 2), ("memory", .num 2048),
          ("private_ipv4", .str "10.0.0.5"), ("billing_account", .num 7),
          ("status", .str "running")]]⟩
        else if i = 1 then ⟨200, .list [.obj [("uuid", .str "ipu"),
          ("address", .str "1.2.3.4"), ("assigned_to", .str "vmu"),
          ("assigned_to_private_ip", .str "10.0.0.5"), ("enabled", .bool true)]]⟩
        else ⟨200, .obj []⟩)
      ⟨"jkt01", .null, .str "vm1", .null, .null, .null, .null, .null, .null,
       .null, .bool true, "absent"⟩) =
      (.error (.exitJson [("uuid", .str "vmu"), ("name", .str "vm1"),
        ("hostname", .str "h"), ("disks", .num 20), ("disk_uuid", .str "du"),
        ("vcpu", .num 2), ("ram", .num 2048), ("private_ipv4", .str "10.0.0.5"),
        ("public_ipv4", .str "1.2.3.4"), ("billing_account", .num 7),
        ("status", .str "running"), ("changed", .bool true)]),
       ⟨4, [⟨"GET", initUrl "jkt01" "user-resource/vm/list", []⟩,
            ⟨"GET", initUrl "jkt01" "network/ip_addresses", []⟩,
            ⟨"DELETE", initUrl "jkt01" "user-resource/vm", [("uuid", .str "vmu")]⟩,
            ⟨"DELETE", initUrl "jkt01" "network/ip_addresses/1.2.3.4", []⟩]⟩)
  ∧ runM (vmMain
      (fun i => if i = 0 then ⟨200, .list [.obj [("uuid", .str "vmu"),
          ("name", .str "vm1"), ("hostname", .str "h"),
          ("storage", .list [.obj [("primary", .bool true), ("size", .num 20),
            ("uuid", .str "du")]]), ("vcpu", .num 2), ("memory", .num 2048),
          ("private_ipv4", .str "10.0.0.5"), ("billing_account", .num 7),
          ("status", .str "running")]]⟩
        else if i = 1 then ⟨200, .list [.obj [("uuid", .str "ipu"),
          ("address", .str "1.2.3.4"), ("assigned_to", .str "vmu"),
          ("assigned_to_private_ip", .str "10.0.0.5"), ("enabled", .bool true)]]⟩
        else ⟨200, .obj []⟩)
      ⟨"jkt01", .null, .str "vm1", .null, .null, .null, .null, .null, .null,
       .null, .bool false, "absent"⟩) =
      (.error (.exitJson [("uuid", .str "vmu"), ("name", .str "vm1"),
        ("hostname", .str "h"), ("disks", .num 20), ("disk_uuid", .str "du"),
        ("vcpu", .num 2), ("ram", .num 2048), ("private_ipv4", .str "10.0.0.5"),
        ("public_ipv4", .str "1.2.3.4"), ("billing_account", .num 7),
        ("status", .str "running"), ("changed", .bool true)]),
       ⟨3, [⟨"GET", initUrl "jkt01" "user-resource/vm/list", []⟩,
            ⟨"GET", initUrl "jkt01" "network/ip_addresses", []⟩,
            ⟨"DELETE", initUrl "jkt01" "user-resource/vm", [("uuid", .str "vmu")]⟩]⟩) := by
  have h := c5_cascade_delete
    (fun i => if i = 0 then ⟨200, .list [.obj [("uuid", .str "vmu"),
        ("name", .str "vm1"), ("hostname", .str "h"),
        ("storage", .list [.obj [("primary", .bool true), ("size", .num 20),
          ("uuid", .str "du")]]), ("vcpu", .num 2), ("memory", .num 2048),
        ("private_ipv4", .str "10.0.0.5"), ("billing_account", .num 7),
        ("status", .str "running")]]⟩
      else if i = 1 then ⟨200, .list [.obj [("uuid", .str "ipu"),
        ("address", .str "1.2.3.4"), ("assigned_to", .str "vmu"),
        ("assigned_to_private_ip", .str "10.0.0.5"), ("enabled", .bool true)]]⟩
      else ⟨200, .obj []⟩)
    ⟨"jkt01", .null, .str "vm1", .null, .null, .null, .null, .null, .null,
     .null, .bool true, "absent"⟩
    ⟨"jkt01", .null, .str "vm1", .null, .null, .null, .null, .null, .null,
     .null, .bool false, "absent"⟩
    "vmu" "vm1" "10.0.0.5" "1.2.3.4"
    (.str "vmu") (.str "vm1") (.str "10.0.0.5") (.str "du") (.str "1.2.3.4")
    (.str "ipu") (.str "h") (.num 2) (.num 2048) (.num 7) (.str "running")
    (.num 20) rfl rfl rfl rfl rfl rfl rfl rfl rfl rfl rfl rfl rfl rfl rfl
  exact h

/-! ### Claim C6 -/

/-- C6: on resize of an existing VM (record shape `vmRecord`), the RAM/VCPU
PATCH is issued iff vcpu or ram differ and the disk PATCH — addressed to the
storage sub-endpoint with the primary disk uuid in its body — iff the
requested size differs:
(1) all three equal: no transport call at all, for every environment;
(2) disks equal: no call to the storage sub-endpoint, for every environment;
(3) vcpu and ram equal: no call to the plain vm endpoint, for every
environment;
(4) vcpu differs, disks equal: exactly [stop, PATCH vm, start] with the
ram/vcpu PATCH present (shown with a rejected PATCH);
(5) disks differ, vcpu and ram equal: exactly [stop, PATCH vm/storage
carrying `disk_uuid`, start]. -/
theorem c6_resize_patch_iff :
    (∀ (env : Env) (p : VmParams) (u nmv hnv dv duv vcv rv pv pubv bav stv : Value)
       (s : Trace), Value.pyEq p.disks dv = true → Value.pyEq p.vcpu vcv = true →
       Value.pyEq p.ram rv = true →
       vmResizeVm env p (vmRecord u nmv hnv dv duv vcv rv pv pubv bav stv) s =
         (.ok (vmRecord u nmv hnv dv duv vcv rv pv pubv bav stv), s))
  ∧ (∀ (env : Env) (p : VmParams) (u nmv hnv dv duv vcv rv pv pubv bav stv : Value)
       (s : Trace) (c : Call), Value.pyEq p.disks dv = true →
       c ∈ ((vmResizeVm env p (vmRecord u nmv hnv dv duv vcv rv pv pubv bav stv)) s).2.calls →
       c ∈ s.calls ∨ c.url ≠ initUrl p.location "user-resource/vm/storage")
  ∧ (∀ (env : Env) (p : VmParams) (u nmv hnv dv duv vcv rv pv pubv bav stv : Value)
       (s : Trace) (c : Call), Value.pyEq p.vcpu vcv = true →
       Value.pyEq p.ram rv = true →
       c ∈ ((vmResizeVm env p (vmRecord u nmv hnv dv duv vcv rv pv pubv bav stv)) s).2.calls →
       c ∈ s.calls ∨ c.url ≠ initUrl p.location "user-resource/vm")
  ∧ (∀ (env : Env) (p : VmParams) (u nmv hnv dv duv vcv rv pv pubv bav stv ru0 st0 ru2 st2 : Value)
       (fs0 fs2 fsRam : Dict) (c0 c1 c2 : Nat),
       Value.pyEq p.disks dv = true → Value.pyEq p.vcpu vcv = false →
       env 0 = ⟨c0, .obj (("uuid", ru0) :: ("status", st0) :: fs0)⟩ →
       env 1 = ⟨c1, .obj fsRam⟩ → dFind fsRam "uuid" = none →
       env 2 = ⟨c2, .obj (("uuid", ru2) :: ("status", st2) :: fs2)⟩ →
       runM (vmResizeVm env p (vmRecord u nmv hnv dv duv vcv rv pv pubv bav stv)) =
         (.error (.failJson [("msg", .obj [("error_ram_vcpu", .obj
             [("msg", .str "Failed to resize the VM."), ("errors", .obj fsRam)])])]),
          ⟨3, [⟨"POST", initUrl p.location "user-resource/vm/stop", [("uuid", u)]⟩,
               ⟨"PATCH", initUrl p.location "user-resource/vm",
                [("uuid", u), ("name", p.name), ("vcpu", p.vcpu), ("ram", p.ram)]⟩,
               ⟨"POST", initUrl p.location "user-resource/vm/start", [("uuid", u)]⟩]⟩))
  ∧ (∀ (env : Env) (p : VmParams) (u nmv hnv dv duv vcv rv pv pubv bav stv ru0 st0 ru2 st2 : Value)
       (fs0 fs2 fsDisk : Dict) (c0 c1 c2 : Nat),
       Value.pyEq p.disks dv = false → Value.pyEq p.vcpu vcv = true →
       Value.pyEq p.ram rv = true →
       env 0 = ⟨c0, .obj (("uuid", ru0) :: ("status", st0) :: fs0)⟩ →
       env 1 = ⟨c1, .obj fsDisk⟩ → dFind fsDisk "uuid" = none →
       env 2 = ⟨c2, .obj (("uuid", ru2) :: ("status", st2) :: fs2)⟩ →
       runM (vmResizeVm env p (vmRecord u nmv hnv dv duv vcv rv pv pubv bav stv)) =
         (.error (.failJson [("msg", .obj [("error_disks", .obj
             [("msg", .str "Failed to resize the VM."), ("errors", .obj fsDisk)])])]),
          ⟨3, [⟨"POST", initUrl p.location "user-resource/vm/stop", [("uuid", u)]⟩,
               ⟨"PATCH", initUrl p.location "user-resource/vm/storage",
                [("uuid", u), ("disk_uuid", duv), ("size_gb", p.disks)]⟩,
               ⟨"POST", initUrl p.location "user-resource/vm/start", [("uuid", u)]⟩]⟩)) := by
  refine ⟨?_, ?_, ?_, ?_, ?_⟩
  · intro env p u nmv hnv dv duv vcv rv pv pubv bav stv s hd hv hr
    simp [vmResizeVm, bindDef, pureDef, M.bind, M.pure, dGet, dFind, vmRecord,
      hd, hv, hr]
  · intro env p u nmv hnv dv duv vcv rv pv pubv bav stv s c hd hc
    have hstop : ∀ act : Bool, initUrl p.location
        ("user-resource/vm/" ++ if act then "start" else "stop") ≠
        initUrl p.location "user-resource/vm/storage" := by
      intro act
      cases act <;> exact initUrl_ne (by decide)
    unfold vmResizeVm at hc
    simp only [bindDef, pureDef] at hc
    rw [bind_ok_step (show dGet (vmRecord u nmv hnv dv duv vcv rv pv pubv bav stv)
      "disks" s = (.ok dv, s) from rfl)] at hc
    rw [bind_ok_step (show dGet (vmRecord u nmv hnv dv duv vcv rv pv pubv bav stv)
      "vcpu" s = (.ok vcv, s) from rfl)] at hc
    rw [bind_ok_step (show dGet (vmRecord u nmv hnv dv duv vcv rv pv pubv bav stv)
      "ram" s = (.ok rv, s) from rfl)] at hc
    rw [hd] at hc
    simp only [Bool.not_true, Bool.false_or] at hc
    by_cases hchg : (!(Value.pyEq p.vcpu vcv) || !(Value.pyEq p.ram rv)) = true
    case neg =>
      rw [if_neg hchg] at hc
      exact Or.inl hc
    case pos =>
      rw [if_pos hchg] at hc
      cases h1 : vmActivateVm env p (vmRecord u nmv hnv dv duv vcv rv pv pubv bav stv)
          false s with
      | mk r1 s1 =>
      have hback1 : ∀ x : Call, x ∈ s1.calls →
          x ∈ s.calls ∨ x.url ≠ initUrl p.location "user-resource/vm/storage" := by
        intro x hx
        rcases callsWithin_vmActivateVm env p _ false s x (by rw [h1]; exact hx) with h | h
        · exact Or.inl h
        · right; rw [h.2]; exact hstop false
      cases r1 with
      | error e1 =>
          rw [bind_error_step h1] at hc
          exact hback1 c hc
      | ok cur1 =>
          rw [bind_ok_step h1] at hc
          obtain ⟨bl, rfl⟩ := vmActivateVm_ok_shape h1
          cases h2 : vmResizeRamVcpu env p
              (dSet (vmRecord u nmv hnv dv duv vcv rv pv pubv bav stv) "changed"
                (Value.bool bl)) s1 with
          | mk r2 s2 =>
          have hback2 : ∀ x : Call, x ∈ s2.calls →
              x ∈ s.calls ∨ x.url ≠ initUrl p.location "user-resource/vm/storage" := by
            intro x hx
            rcases callsWithin_vmResizeRamVcpu env p _ s1 x (by rw [h2]; exact hx) with h | h
            · exact hback1 x h
            · right
              rcases h with h | h
              · rw [h]; exact initUrl_ne (by decide)
              · rw [h]; exact initUrl_ne (by decide)
          cases r2 with
          | error e2 =>
              rw [bind_error_step h2] at hc
              exact hback2 c hc
          | ok vmA =>
              rw [bind_ok_step h2] at hc
              have hfind : dFind (dSet (vmRecord u nmv hnv dv duv vcv rv pv pubv bav stv)
                  "changed" (Value.bool bl)) "disks" = some dv := by
                rw [dFind_dSet_ne _ _ _ _ (by decide)]
                rfl
              rw [bind_ok_step (vmResizeDisks_noop env p _ dv hfind hd s2)] at hc
              cases h4 : vmActivateVm env p
                  (dSet (vmRecord u nmv hnv dv duv vcv rv pv pubv bav stv) "changed"
                    (Value.bool bl)) true s2 with
              | mk r4 s4 =>
              have hback4 : ∀ x : Call, x ∈ s4.calls →
                  x ∈ s.calls ∨ x.url ≠ initUrl p.location "user-resource/vm/storage" := by
                intro x hx
                rcases callsWithin_vmActivateVm env p _ true s2 x (by rw [h4]; exact hx) with h | h
                · exact hback2 x h
                · right; rw [h.2]; exact hstop true
              cases r4 with
              | error e4 =>
                  rw [bind_error_step h4] at hc
                  exact hback4 c hc
              | ok a4 =>
                  rw [bind_ok_step h4] at hc
                  split at hc
                  · exact hback4 c hc
                  · exact hback4 c hc
  · intro env p u nmv hnv dv duv vcv rv pv pubv bav stv s c hv hr hc
    have hstop : ∀ act : Bool, initUrl p.location
        ("user-resource/vm/" ++ if act then "start" else "stop") ≠
        initUrl p.location "user-resource/vm" := by
      intro act
      cases act <;> exact initUrl_ne (by decide)
    unfold vmResizeVm at hc
    simp only [bindDef, pureDef] at hc
    rw [bind_ok_step (show dGet (vmRecord u nmv hnv dv duv vcv rv pv pubv bav stv)
      "disks" s = (.ok dv, s) from rfl)] at hc
    rw [bind_ok_step (show dGet (vmRecord u nmv hnv dv duv vcv rv pv pubv bav stv)
      "vcpu" s = (.ok vcv, s) from rfl)] at hc
    rw [bind_ok_step (show dGet (vmRecord u nmv hnv dv duv vcv rv pv pubv bav stv)
      "ram" s = (.ok rv, s) from rfl)] at hc
    rw [hv, hr] at hc
    simp only [Bool.not_true, Bool.or_false] at hc
    by_cases hchg : (!(Value.pyEq p.disks dv)) = true
    case neg =>
      rw [if_neg hchg] at hc
      exact Or.inl hc
    case pos =>
      rw [if_pos hchg] at hc
      cases h1 : vmActivateVm env p (vmRecord u nmv hnv dv duv vcv rv pv pubv bav stv)
          false s with
      | mk r1 s1 =>
      have hback1 : ∀ x : Call, x ∈ s1.calls →
          x ∈ s.calls ∨ x.url ≠ initUrl p.location "user-resource/vm" := by
        intro x hx
        rcases callsWithin_vmActivateVm env p _ false s x (by rw [h1]; exact hx) with h | h
        · exact Or.inl h
        · right; rw [h.2]; exact hstop false
      cases r1 with
      | error e1 =>
          rw [bind_error_step h1] at hc
          exact hback1 c hc
      | ok cur1 =>
          rw [bind_ok_step h1] at hc
          obtain ⟨bl, rfl⟩ := vmActivateVm_ok_shape h1
          have hfv : dFind (dSet (vmRecord u nmv hnv dv duv vcv rv pv pubv bav stv)
              "changed" (Value.bool bl)) "vcpu" = some vcv := by
            rw [dFind_dSet_ne _ _ _ _ (by decide)]
            rfl
          have hfr : dFind (dSet (vmRecord u nmv hnv dv duv vcv rv pv pubv bav stv)
              "changed" (Value.bool bl)) "ram" = some rv := by
            rw [dFind_dSet_ne _ _ _ _ (by decide)]
            rfl
          rw [bind_ok_step (vmResizeRamVcpu_noop env p _ vcv rv hfv hfr hv hr s1)] at hc
          cases h3 : vmResizeDisks env p
              (dSet (vmRecord u nmv hnv dv duv vcv rv pv pubv bav stv) "changed"
                (Value.bool bl)) s1 with
          | mk r3 s3 =>
          have hback3 : ∀ x : Call, x ∈ s3.calls →
              x ∈ s.calls ∨ x.url ≠ initUrl p.location "user-resource/vm" := by
            intro x hx
            rcases callsWithin_vmResizeDisks env p _ s1 x (by rw [h3]; exact hx) with h | h
            · exact hback1 x h
            · right; rw [h]; exact initUrl_ne (by decide)
          cases r3 with
          | error e3 =>
              rw [bind_error_step h3] at hc
              exact hback3 c hc
          | ok vmB =>
              rw [bind_ok_step h3] at hc
              cases h4 : vmActivateVm env p
                  (dSet (vmRecord u nmv hnv dv duv vcv rv pv pubv bav stv) "changed"
                    (Value.bool bl)) true s3 with
              | mk r4 s4 =>
              have hback4 : ∀ x : Call, x ∈ s4.calls →
                  x ∈ s.calls ∨ x.url ≠ initUrl p.location "user-resource/vm" := by
                intro x hx
                rcases callsWithin_vmActivateVm env p _ true s3 x (by rw [h4]; exact hx) with h | h
                · exact hback3 x h
                · right; rw [h.2]; exact hstop true
              cases r4 with
              | error e4 =>
                  rw [bind_error_step h4] at hc
                  exact hback4 c hc
              | ok a4 =>
                  rw [bind_ok_step h4] at hc
                  rw [preserves_ite (preserves_failJson _) (preserves_pure _) s4] at hc
                  exact hback4 c hc
  · intro env p u nmv hnv dv duv vcv rv pv pubv bav stv ru0 st0 ru2 st2 fs0 fs2
      fsRam c0 c1 c2 hd hv henv0 henv1 hRam henv2
    simp [runM, vmResizeVm, vmActivateVm, vmResizeRamVcpu, vmResizeDisks, bindDef,
      pureDef, M.bind, M.pure, M.throw, request, dGet, dFind, vGet, pyContains,
      dUpdate, dSet, failJson, henv0, henv1, henv2, hd, hv, hRam, vmRecord]
  · intro env p u nmv hnv dv duv vcv rv pv pubv bav stv ru0 st0 ru2 st2 fs0 fs2
      fsDisk c0 c1 c2 hd hv hr henv0 henv1 hDisk henv2
    simp [runM, vmResizeVm, vmActivateVm, vmResizeRamVcpu, vmResizeDisks, bindDef,
      pureDef, M.bind, M.pure, M.throw, request, dGet, dFind, vGet, pyContains,
      dUpdate, dSet, failJson, henv0, henv1, henv2, hd, hv, hr, hDisk, vmRecord]

/-- C6 witness: a concrete VM at 20GB/2vcpu/2048MB — (1) resize to identical
values issues nothing; (2)(4) resize of vcpu/ram only never touches the
storage endpoint; (3)(5) resize of the disk only never touches the plain vm
endpoint. -/
theorem c6_resize_patch_iff_witness :
    vmResizeVm (fun _ => ⟨200, .obj []⟩)
      ⟨"jkt01", .null, .str "vm1", .null, .null, .num 20, .num 2, .num 2048,
       .null, .null, .null, "resize"⟩
      (vmRecord (.str "vmu") (.str "vm1") (.str "h") (.num 20) (.str "du")
        (.num 2) (.num 2048) (.str "10.0.0.5") (.str "") (.num 7) (.str "running"))
      ⟨0, []⟩ =
      (.ok (vmRecord (.str "vmu") (.str "vm1") (.str "h") (.num 20) (.str "du")
        (.num 2) (.num 2048) (.str "10.0.0.5") (.str "") (.num 7) (.str "running")), ⟨0, []⟩)
  ∧ (⟨"POST", initUrl "jkt01" "user-resource/vm/stop", [("uuid", Value.str "vmu")]⟩ ∈
        ([] : List Call) ∨
      initUrl "jkt01" "user-resource/vm/stop" ≠ initUrl "jkt01" "user-resource/vm/storage")
  ∧ (⟨"POST", initUrl "jkt01" "user-resource/vm/stop", [("uuid", Value.str "vmu")]⟩ ∈
        ([] : List Call) ∨
      initUrl "jkt01" "user-resource/vm/stop" ≠ initUrl "jkt01" "user-resource/vm")
  ∧ runM (vmResizeVm
      (fun i => if i = 0 then ⟨200, .obj [("uuid", .str "vmu"), ("status", .str "stopped")]⟩
        else if i = 1 then ⟨400, .obj [("errors", .str "ram boom")]⟩
        else ⟨200, .obj [("uuid", .str "vmu"), ("status", .str "running")]⟩)
      ⟨"jkt01", .null, .str "vm1", .null, .null, .num 20, .num 4, .num 4096,
       .null, .null, .null, "resize"⟩
      (vmRecord (.str "vmu") (.str "vm1") (.str "h") (.num 20) (.str "du")
        (.num 2) (.num 2048) (.str "10.0.0.5") (.str "") (.num 7) (.str "running"))) =
      (.error (.failJson [("msg", .obj [("error_ram_vcpu", .obj
          [("msg", .str "Failed to resize the VM."),
           ("errors", .obj [("errors", .str "ram boom")])])])]),
       ⟨3, [⟨"POST", initUrl "jkt01" "user-resource/vm/stop", [("uuid", .str "vmu")]⟩,
            ⟨"PATCH", initUrl "jkt01" "user-resource/vm",
             [("uuid", .str "vmu"), ("name", .str "vm1"), ("vcpu", .num 4),
              ("ram", .num 4096)]⟩,
            ⟨"POST", initUrl "jkt01" "user-resource/vm/start", [("uuid", .str "vmu")]⟩]⟩)
  ∧ runM (vmResizeVm
      (fun i => if i = 0 then ⟨200, .obj [("uuid", .str "vmu"), ("status", .str "stopped")]⟩
        else if i = 1 then ⟨400, .obj [("errors", .str "disk boom")]⟩
        else ⟨200, .obj [("uuid", .str "vmu"), ("status", .str "running")]⟩)
      ⟨"jkt01", .null, .str "vm1", .null, .null, .num 40, .num 2, .num 2048,
       .null, .null, .null, "resize"⟩
      (vmRecord (.str "vmu") (.str "vm1") (.str "h") (.num 20) (.str "du")
        (.num 2) (.num 2048) (.str "10.0.0.5") (.str "") (.num 7) (.str "running"))) =
      (.error (.failJson [("msg", .obj [("error_disks", .obj
          [("msg", .str "Failed to resize the VM."),
           ("errors", .obj [("errors", .str "disk boom")])])])]),
       ⟨3, [⟨"POST", initUrl "jkt01" "user-resource/vm/stop", [("uuid", .str "vmu")]⟩,
            ⟨"PATCH", initUrl "jkt01" "user-resource/vm/storage",
             [("uuid", .str "vmu"), ("disk_uuid", .str "du"), ("size_gb", .num 40)]⟩,
            ⟨"POST", initUrl "jkt01" "user-resource/vm/start", [("uuid", .str "vmu")]⟩]⟩) := by
  refine ⟨?_, ?_, ?_, ?_, ?_⟩
  · exact c6_resize_patch_iff.1 (fun _ => ⟨200, .obj []⟩)
      ⟨"jkt01", .null, .str "vm1", .null, .null, .num 20, .num 2, .num 2048,
       .null, .null, .null, "resize"⟩
      (.str "vmu") (.str "vm1") (.str "h") (.num 20) (.str "du") (.num 2)
      (.num 2048) (.str "10.0.0.5") (.str "") (.num 7) (.str "running")
      ⟨0, []⟩ rfl rfl rfl
  · exact c6_resize_patch_iff.2.1
      (fun i => if i = 0 then ⟨200, .obj [("uuid", .str "vmu"), ("status", .str "stopped")]⟩
        else if i = 1 then ⟨400, .obj [("errors", .str "ram boom")]⟩
        else ⟨200, .obj [("uuid", .str "vmu"), ("status", .str "running")]⟩)
      ⟨"jkt01", .null, .str "vm1", .null, .null, .num 20, .num 4, .num 4096,
       .null, .null, .null, "resize"⟩
      (.str "vmu") (.str "vm1") (.str "h") (.num 20) (.str "du") (.num 2)
      (.num 2048) (.str "10.0.0.5") (.str "") (.num 7) (.str "running")
      ⟨0, []⟩ ⟨"POST", initUrl "jkt01" "user-resource/vm/stop", [("uuid", Value.str "vmu")]⟩
      rfl (List.Mem.head _)
  · exact c6_resize_patch_iff.2.2.1
      (fun i => if i = 0 then ⟨200, .obj [("uuid", .str "vmu"), ("status", .str "stopped")]⟩
        else if i = 1 then ⟨400, .obj [("errors", .str "disk boom")]⟩
        else ⟨200, .obj [("uuid", .str "vmu"), ("status", .str "running")]⟩)
      ⟨"jkt01", .null, .str "vm1", .null, .null, .num 40, .num 2, .num 2048,
       .null, .null, .null, "resize"⟩
      (.str "vmu") (.str "vm1") (.str "h") (.num 20) (.str "du") (.num 2)
      (.num 2048) (.str "10.0.0.5") (.str "") (.num 7) (.str "running")
      ⟨0, []⟩ ⟨"POST", initUrl "jkt01" "user-resource/vm/stop", [("uuid", Value.str "vmu")]⟩
      rfl rfl (List.Mem.head _)
  · exact c6_resize_patch_iff.2.2.2.1
      (fun i => if i = 0 then ⟨200, .obj [("uuid", .str "vmu"), ("status", .str "stopped")]⟩
        else if i = 1 then ⟨400, .obj [("errors", .str "ram boom")]⟩
        else ⟨200, .obj [("uuid", .str "vmu"), ("status", .str "running")]⟩)
      ⟨"jkt01", .null, .str "vm1", .null, .null, .num 20, .num 4, .num 4096,
       .null, .null, .null, "resize"⟩
      (.str "vmu") (.str "vm1") (.str "h") (.num 20) (.str "du") (.num 2)
      (.num 2048) (.str "10.0.0.5") (.str "") (.num 7) (.str "running")
      (.str "vmu") (.str "stopped") (.str "vmu") (.str "running")
      [] [] [("errors", .str "ram boom")] 200 400 200
      rfl rfl rfl rfl rfl rfl
  · exact c6_resize_patch_iff.2.2.2.2
      (fun i => if i = 0 then ⟨200, .obj [("uuid", .str "vmu"), ("status", .str "stopped")]⟩
        else if i = 1 then ⟨400, .obj [("errors", .str "disk boom")]⟩
        else ⟨200, .obj [("uuid", .str "vmu"), ("status", .str "running")]⟩)
      ⟨"jkt01", .null, .str "vm1", .null, .null, .num 40, .num 2, .num 2048,
       .null, .null, .null, "resize"⟩
      (.str "vmu") (.str "vm1") (.str "h") (.num 20) (.str "du") (.num 2)
      (.num 2048) (.str "10.0.0.5") (.str "") (.num 7) (.str "running")
      (.str "vmu") (.str "stopped") (.str "vmu") (.str "running")
      [] [] [("errors", .str "disk boom")] 200 400 200
      rfl rfl rfl rfl rfl rfl rfl

/-! ### Claim C9 -/

/-- C9: every block-storage invocation passes the unexpected keyword
`include_storage` to the shared VM lookup, so Python raises TypeError before
any request is issued (the trace stays empty — in particular no mutating
call); moreover any record the VM constructor can produce lacks the
`storage_list` key the delete path reads, so `_get_disk_from_vm` would raise
KeyError even if the lookup call were repaired. -/
theorem c9_block_storage_unreachable :
    (∀ (env : Env) (p : BsParams), p.vmName.isNull = false →
       runM (bsMain env p) =
         (.error (.typeError "_get_vm got an unexpected keyword argument include_storage"),
          ⟨0, []⟩))
  ∧ (∀ (env : Env) (location : String) (data : Value) (b : Bool) (s s2 : Trace)
       (r : Dict), constructVmData env location data b s = (.ok r, s2) →
       dFind r "storage_list" = none)
  ∧ (∀ (p : BsParams) (vm : Dict), dFind vm "storage_list" = none →
       ∀ s, bsGetDiskFromVm p vm s = (.error (.keyError "storage_list"), s)) := by
  refine ⟨?_, ?_, ?_⟩
  · intro env p h
    simp [runM, bsMain, bindDef, pureDef, M.bind, M.pure, M.throw, h,
      bsGetVmCallKwargs, getVmAcceptedKwargs]
  · intro env location data b s s2 r h
    unfold constructVmData at h
    simp only [bindDef, pureDef] at h
    obtain ⟨fi, t1, h1, h⟩ := M.bind_ok h
    obtain ⟨hasPub, t2, h2, h⟩ := M.bind_ok h
    obtain ⟨pub, t3, h3, h⟩ := M.bind_ok h
    obtain ⟨storage, t4, h4, h⟩ := M.bind_ok h
    obtain ⟨dd, t5, h5, h⟩ := M.bind_ok h
    obtain ⟨u, t6, h6, h⟩ := M.bind_ok h
    obtain ⟨nm, t7, h7, h⟩ := M.bind_ok h
    obtain ⟨hn, t8, h8, h⟩ := M.bind_ok h
    obtain ⟨vc, t9, h9, h⟩ := M.bind_ok h
    obtain ⟨mem, t10, h10, h⟩ := M.bind_ok h
    obtain ⟨priv, t11, h11, h⟩ := M.bind_ok h
    obtain ⟨ba, t12, h12, h⟩ := M.bind_ok h
    obtain ⟨st2, t13, h13, h⟩ := M.bind_ok h
    unfold M.pure at h
    have hr : Except.ok (ε := Outcome)
        ([("uuid", u), ("name", nm), ("hostname", hn), ("disks", dd.1),
          ("disk_uuid", dd.2), ("vcpu", vc), ("ram", mem), ("private_ipv4", priv),
          ("public_ipv4", pub), ("billing_account", ba), ("status", st2),
          ("changed", Value.bool false)] : Dict) = .ok r :=
      congrArg Prod.fst h
    obtain rfl : _ = r := by injection hr
    simp [dFind]
  · intro p vm h s
    simp [bsGetDiskFromVm, bindDef, pureDef, M.bind, M.throw, dGet, h]

/-- C9 witness: a concrete present-state invocation TypeErrors with an empty
trace; a concrete VM-record construction carries no `storage_list` key; the
disk scan on such a record raises KeyError. -/
theorem c9_block_storage_unreachable_witness :
    runM (bsMain (fun _ => ⟨200, .list []⟩)
        ⟨"jkt01", .str "bs1", .str "vm1", .num 10, "present"⟩) =
      (.error (.typeError "_get_vm got an unexpected keyword argument include_storage"),
       ⟨0, []⟩)
  ∧ dFind [("uuid", Value.str "a"), ("name", Value.str "b"),
      ("hostname", Value.str "c"), ("disks", Value.num 0),
      ("disk_uuid", Value.str ""), ("vcpu", Value.num 1), ("ram", Value.num 2),
      ("private_ipv4", Value.str "d"), ("public_ipv4", Value.str ""),
      ("billing_account", Value.num 3), ("status", Value.str "e"),
      ("changed", Value.bool false)] "storage_list" = none
  ∧ bsGetDiskFromVm ⟨"jkt01", .str "bs1", .str "vm1", .num 10, "absent"⟩ [] ⟨0, []⟩ =
      (.error (.keyError "storage_list"), ⟨0, []⟩) := by
  refine ⟨?_, ?_, ?_⟩
  · exact c9_block_storage_unreachable.1 (fun _ => ⟨200, .list []⟩)
      ⟨"jkt01", .str "bs1", .str "vm1", .num 10, "present"⟩ rfl
  · exact c9_block_storage_unreachable.2.1 (fun _ => ⟨200, .list []⟩) "jkt01"
      (.obj [("uuid", .str "a"), ("name", .str "b"), ("hostname", .str "c"),
        ("storage", .list []), ("vcpu", .num 1), ("memory", .num 2),
        ("private_ipv4", .str "d"), ("billing_account", .num 3),
        ("status", .str "e")]) false ⟨0, []⟩ ⟨0, []⟩ _ rfl
  · exact c9_block_storage_unreachable.2.2
      ⟨"jkt01", .str "bs1", .str "vm1", .num 10, "absent"⟩ [] rfl ⟨0, []⟩

/-! ### Claim C10 -/

/-- C10: with desired state active or inactive and no VM matching the name,
`Vm.main` hands the empty locator sentinel to `_activate_vm` with no
found-guard, which reads `vm['uuid']` and dies with an uncaught KeyError
(neither a no-op exit nor an Error Envelope), after only the lookup GET; the
resize and absent branches guard the same sentinel and exit as a no-op. -/
theorem c10_power_toggle_missing_guard
    (env : Env) (pa pi2 pr pb : VmParams)
    (henv : env 0 = ⟨200, .list []⟩)
    (ha : pa.state = "active") (hi : pi2.state = "inactive")
    (hr : pr.state = "resize") (hb : pb.state = "absent") :
    runM (vmMain env pa) =
      (.error (.keyError "uuid"),
       ⟨1, [⟨"GET", initUrl pa.location "user-resource/vm/list", []⟩]⟩)
  ∧ runM (vmMain env pi2) =
      (.error (.keyError "uuid"),
       ⟨1, [⟨"GET", initUrl pi2.location "user-resource/vm/list", []⟩]⟩)
  ∧ runM (vmMain env pr) =
      (.error (.exitJson [("changed", .bool false)]),
       ⟨1, [⟨"GET", initUrl pr.location "user-resource/vm/list", []⟩]⟩)
  ∧ runM (vmMain env pb) =
      (.error (.exitJson [("changed", .bool false)]),
       ⟨1, [⟨"GET", initUrl pb.location "user-resource/vm/list", []⟩]⟩) := by
  refine ⟨?_, ?_, ?_, ?_⟩ <;>
    simp [runM, vmMain, getVm, vmActivateVm, bindDef, pureDef, M.bind, M.pure,
      M.throw, request, henv, ha, hi, hr, hb, dGet, dFind, exitJson, dUpdate,
      dSet]

/-- C10 witness: concrete invocations for all four desired states against an
empty remote VM collection. -/
theorem c10_power_toggle_missing_guard_witness :
    runM (vmMain (fun _ => ⟨200, .list []⟩)
        ⟨"jkt01", .null, .str "vm1", .null, .null, .null, .null, .null, .null,
         .null, .null, "active"⟩) =
      (.error (.keyError "uuid"),
       ⟨1, [⟨"GET", initUrl "jkt01" "user-resource/vm/list", []⟩]⟩)
  ∧ runM (vmMain (fun _ => ⟨200, .list []⟩)
        ⟨"jkt01", .null, .str "vm1", .null, .null, .null, .null, .null, .null,
         .null, .null, "inactive"⟩) =
      (.error (.keyError "uuid"),
       ⟨1, [⟨"GET", initUrl "jkt01" "user-resource/vm/list", []⟩]⟩)
  ∧ runM (vmMain (fun _ => ⟨200, .list []⟩)
        ⟨"jkt01", .null, .str "vm1", .null, .null, .num 20, .num 2, .num 2048,
         .null, .null, .null, "resize"⟩) =
      (.error (.exitJson [("changed", .bool false)]),
       ⟨1, [⟨"GET", initUrl "jkt01" "user-resource/vm/list", []⟩]⟩)
  ∧ runM (vmMain (fun _ => ⟨200, .list []⟩)
        ⟨"jkt01", .null, .str "vm1", .null, .null, .null, .null, .null, .null,
         .null, .bool true, "absent"⟩) =
      (.error (.exitJson [("changed", .bool false)]),
       ⟨1, [⟨"GET", initUrl "jkt01" "user-resource/vm/list", []⟩]⟩) :=
  c10_power_toggle_missing_guard (fun _ => ⟨200, .list []⟩)
    ⟨"jkt01", .null, .str "vm1", .null, .null, .null, .null, .null, .null,
     .null, .null, "active"⟩
    ⟨"jkt01", .null, .str "vm1", .null, .null, .null, .null, .null, .null,
     .null, .null, "inactive"⟩
    ⟨"jkt01", .null, .str "vm1", .null, .null, .num 20, .num 2, .num 2048,
     .null, .null, .null, "resize"⟩
    ⟨"jkt01", .null, .str "vm1", .null, .null, .null, .null, .null, .null,
     .null, .bool true, "absent"⟩
    rfl rfl rfl rfl rfl

/-! ### Claim C8 -/

/-- C8: the FloatingIP association invariant.  Provided every transport
response is well-formed (`wfEnv`: in every response record the provider
fields `assigned_to` and `assigned_to_private_ip` are absent-or-empty
together, which is how the service reports assignment), then
(1) every floating-IP record the `_get_public_ipv4` locator returns
satisfies `assigned_to_vm_uuid = "" iff private_ipv4_address = ""`, and
(2) every `exit_json` result of the floating_ip module — across the
present/create/assign, absent and unassign operations — satisfies the
same invariant. -/
theorem c8_fip_invariant :
    (∀ (env : Env) (loc : String) (a b c : Value) (s s2 : Trace) (w : Value),
        wfEnv env → getPublicIpv4 env loc a b c s = (.ok w, s2) → fipInvV w) ∧
    (∀ (env : Env) (p : FipParams), wfEnv env → ExitsInv (fipMain env p) fipInv) :=
  ⟨fun _ _ _ _ _ _ _ _ hwf h => getPublicIpv4_inv hwf h,
   fun env p hwf => exitsInv_fipMain env p hwf⟩

theorem c8_fip_invariant_witness :
    fipInvV Value.null ∧
    ExitsInv (fipMain (fun _ => ⟨200, Value.list []⟩)
      ⟨"jkt01", Value.str "f", Value.null, "absent"⟩) fipInv :=
  ⟨c8_fip_invariant.1 (fun _ => ⟨200, Value.list []⟩) "jkt01" Value.null Value.null
      Value.null ⟨0, []⟩
      ⟨1, [⟨"GET", initUrl "jkt01" "network/ip_addresses", []⟩]⟩ Value.null
      (fun _ x hx => by cases hx) rfl,
   c8_fip_invariant.2 (fun _ => ⟨200, Value.list []⟩)
      ⟨"jkt01", Value.str "f", Value.null, "absent"⟩
      (fun _ x hx => by cases hx)⟩

end IdCloudHost
